import Mathlib

/-!
Shallow embedding of the roof-geometry synthesis engine (src/Nevim.py) and the
solar-suitability scorer (src/testovani_08_05.py) of the Ladybug diploma
project.  Coordinates and angles are modelled over the real numbers; Python
floats become `ℝ`, Python `math.tan`/`sin`/`cos`/`acos`/`sqrt` become the
corresponding `Real` functions, Python `int(...)` truncation of nonnegative
quantities becomes `Int.floor`/`Int.toNat`.
-/

namespace RoofModel

noncomputable section

/-- Mirrors `ladybug_geometry` `Point3D`/`Vector3D`: an (x, y, z) triple of
real coordinates. -/
@[ext]
structure Point3 where
  x : ℝ
  y : ℝ
  z : ℝ

instance : Inhabited Point3 := ⟨⟨0, 0, 0⟩⟩

/-- Dot product of two vectors (`Vector3D.dot`). -/
def dot (a b : Point3) : ℝ := a.x * b.x + a.y * b.y + a.z * b.z

/-- Euclidean magnitude of a vector (`Vector3D.magnitude`). -/
def magnitude (v : Point3) : ℝ := Real.sqrt (v.x ^ 2 + v.y ^ 2 + v.z ^ 2)

/-- Angle between two vectors (`Vector3D.angle`):
`acos(dot / (|a| * |b|))`, in radians. -/
def angleBetween (a b : Point3) : ℝ := Real.arccos (dot a b / (magnitude a * magnitude b))

/-- `Vector3D.reverse`. -/
def reverseVec (v : Point3) : Point3 := ⟨-v.x, -v.y, -v.z⟩

/-- `Vector3D.normalize`: divide each component by the magnitude. -/
def normalizeVec (v : Point3) : Point3 :=
  ⟨v.x / magnitude v, v.y / magnitude v, v.z / magnitude v⟩

/-- `math.radians`. -/
def radians (deg : ℝ) : ℝ := deg * Real.pi / 180

/-- `min(pt.x for pt in footprint)`; junk value 0 on the empty footprint
(where Python raises). -/
def minX : List Point3 → ℝ
  | [] => 0
  | p :: ps => ps.foldl (fun a q => min a q.x) p.x

/-- `max(pt.x for pt in footprint)`. -/
def maxX : List Point3 → ℝ
  | [] => 0
  | p :: ps => ps.foldl (fun a q => max a q.x) p.x

/-- `min(pt.y for pt in footprint)`. -/
def minY : List Point3 → ℝ
  | [] => 0
  | p :: ps => ps.foldl (fun a q => min a q.y) p.y

/-- `max(pt.y for pt in footprint)`. -/
def maxY : List Point3 → ℝ
  | [] => 0
  | p :: ps => ps.foldl (fun a q => max a q.y) p.y

/-- The rectangular footprint built by `create_building` (src/Nevim.py
lines 613-618): origin corner, then +width, then +width+depth, then +depth. -/
def rectFootprint (x0 y0 z0 w d : ℝ) : List Point3 :=
  [⟨x0, y0, z0⟩, ⟨x0 + w, y0, z0⟩, ⟨x0 + w, y0 + d, z0⟩, ⟨x0, y0 + d, z0⟩]

/-- A face is an ordered closed loop of points (`Face3D`). -/
abbrev Face := List Point3

/-- `create_flat_roof` (src/Nevim.py lines 18-35): one face at
`height + roof_thickness`, each vertex lowered by its planar distance from
the footprint centroid times `slope / 100`. -/
def create_flat_roof (footprint : List Point3) (height : ℝ)
    (roof_thickness : ℝ := 3/10) (slope : ℝ := 0) : Face :=
  let center_x := (footprint.map Point3.x).sum / footprint.length
  let center_y := (footprint.map Point3.y).sum / footprint.length
  footprint.map (fun pt =>
    let dist := Real.sqrt ((pt.x - center_x) ^ 2 + (pt.y - center_y) ^ 2)
    ⟨pt.x, pt.y, height + roof_thickness - dist * slope / 100⟩)

/-- `create_gable_roof` (src/Nevim.py lines 37-141): ridge height is
`max(roof_height, half_span * tan(slope_angle))`; output is the two slope
quadrilaterals followed by the two triangular gable ends.  (The source also
computes a sorted `bottom_pts` list at line 62 that it never uses; that
dead code is omitted.) -/
def create_gable_roof (footprint : List Point3) (height : ℝ)
    (roof_height : ℝ := 3) (axis : String := "y") (slope_angle : ℝ := 30) :
    List Face :=
  let min_x := minX footprint
  let max_x := maxX footprint
  let min_y := minY footprint
  let max_y := maxY footprint
  let width := max_x - min_x
  let depth := max_y - min_y
  let adjusted_height :=
    (if axis = "y" then width / 2 else depth / 2) * Real.tan (radians slope_angle)
  let rh := max roof_height adjusted_height
  if axis = "y" then
    let mid_x := (min_x + max_x) / 2
    let ridge_pt1 : Point3 := ⟨mid_x, min_y, height + rh⟩
    let ridge_pt2 : Point3 := ⟨mid_x, max_y, height + rh⟩
    [[⟨min_x, min_y, height⟩, ⟨min_x, max_y, height⟩, ridge_pt2, ridge_pt1],
     [⟨max_x, min_y, height⟩, ⟨max_x, max_y, height⟩, ridge_pt2, ridge_pt1],
     [⟨min_x, min_y, height⟩, ⟨max_x, min_y, height⟩, ridge_pt1],
     [⟨min_x, max_y, height⟩, ⟨max_x, max_y, height⟩, ridge_pt2]]
  else
    let mid_y := (min_y + max_y) / 2
    let ridge_pt1 : Point3 := ⟨min_x, mid_y, height + rh⟩
    let ridge_pt2 : Point3 := ⟨max_x, mid_y, height + rh⟩
    [[⟨min_x, min_y, height⟩, ⟨max_x, min_y, height⟩, ridge_pt2, ridge_pt1],
     [⟨min_x, max_y, height⟩, ⟨max_x, max_y, height⟩, ridge_pt2, ridge_pt1],
     [⟨min_x, min_y, height⟩, ⟨min_x, max_y, height⟩, ridge_pt1],
     [⟨max_x, min_y, height⟩, ⟨max_x, max_y, height⟩, ridge_pt2]]

/-- `create_hip_roof` (src/Nevim.py lines 143-181): apex above the bounding
box centre at height `max(roof_height, min(width, depth)/2 * tan(slope_angle))`,
four triangles from each bounding-box edge to the apex. -/
def create_hip_roof (footprint : List Point3) (height : ℝ)
    (roof_height : ℝ := 5/2) (slope_angle : ℝ := 25) : List Face :=
  let min_x := minX footprint
  let max_x := maxX footprint
  let min_y := minY footprint
  let max_y := maxY footprint
  let width := max_x - min_x
  let depth := max_y - min_y
  let span := min width depth / 2
  let rh := max roof_height (span * Real.tan (radians slope_angle))
  let center_x := (min_x + max_x) / 2
  let center_y := (min_y + max_y) / 2
  let peak_pt : Point3 := ⟨center_x, center_y, height + rh⟩
  let c0 : Point3 := ⟨min_x, min_y, height⟩
  let c1 : Point3 := ⟨max_x, min_y, height⟩
  let c2 : Point3 := ⟨max_x, max_y, height⟩
  let c3 : Point3 := ⟨min_x, max_y, height⟩
  [[c0, c1, peak_pt], [c1, c2, peak_pt], [c2, c3, peak_pt], [c3, c0, peak_pt]]

/-- `create_pyramid_roof` (src/Nevim.py lines 183-186): delegates to
`create_hip_roof` with only footprint/height/roof_height, so Hip's default
slope angle of 25 degrees applies. -/
def create_pyramid_roof (footprint : List Point3) (height : ℝ)
    (roof_height : ℝ := 4) : List Face :=
  create_hip_roof footprint height roof_height

/-- `create_shed_roof` (src/Nevim.py lines 188-239): a single quadrilateral;
when a slope angle is supplied the roof height is recomputed as
`span * tan(angle)` (span along y for north/south, along x otherwise),
discarding the explicit roof height. -/
def create_shed_roof (footprint : List Point3) (height : ℝ)
    (roof_height : ℝ := 2) (slope_direction : String := "north")
    (slope_angle : Option ℝ := none) : Face :=
  let min_x := minX footprint
  let max_x := maxX footprint
  let min_y := minY footprint
  let max_y := maxY footprint
  let rh :=
    match slope_angle with
    | some angle =>
        (if slope_direction = "north" ∨ slope_direction = "south" then
          max_y - min_y
        else
          max_x - min_x) * Real.tan (radians angle)
    | none => roof_height
  if slope_direction = "north" then
    [⟨min_x, min_y, height⟩, ⟨max_x, min_y, height⟩,
     ⟨max_x, max_y, height + rh⟩, ⟨min_x, max_y, height + rh⟩]
  else if slope_direction = "south" then
    [⟨min_x, min_y, height + rh⟩, ⟨max_x, min_y, height + rh⟩,
     ⟨max_x, max_y, height⟩, ⟨min_x, max_y, height⟩]
  else if slope_direction = "east" then
    [⟨min_x, min_y, height⟩, ⟨max_x, min_y, height + rh⟩,
     ⟨max_x, max_y, height + rh⟩, ⟨min_x, max_y, height⟩]
  else
    [⟨min_x, min_y, height + rh⟩, ⟨max_x, min_y, height⟩,
     ⟨max_x, max_y, height⟩, ⟨min_x, max_y, height + rh⟩]

/-- `create_mansard_roof` (src/Nevim.py lines 241-299): 70/30 height split,
25% inset, four trapezoid lower faces plus the flat cap at the mid level.
(The source also builds `top_pts` at full roof height but never uses it;
that dead code is omitted, and the `lower_slope`/`upper_slope` parameters
are accepted but unused exactly as in the source.) -/
def create_mansard_roof (footprint : List Point3) (height : ℝ)
    (roof_height : ℝ := 3) (lower_slope : ℝ := 70) (upper_slope : ℝ := 30) :
    List Face :=
  let min_x := minX footprint
  let max_x := maxX footprint
  let min_y := minY footprint
  let max_y := maxY footprint
  let width := max_x - min_x
  let depth := max_y - min_y
  let lower_height := roof_height * (7/10)
  let inset_x := width * (1/4)
  let inset_y := depth * (1/4)
  let c0 : Point3 := ⟨min_x, min_y, height⟩
  let c1 : Point3 := ⟨max_x, min_y, height⟩
  let c2 : Point3 := ⟨max_x, max_y, height⟩
  let c3 : Point3 := ⟨min_x, max_y, height⟩
  let m0 : Point3 := ⟨min_x + inset_x, min_y + inset_y, height + lower_height⟩
  let m1 : Point3 := ⟨max_x - inset_x, min_y + inset_y, height + lower_height⟩
  let m2 : Point3 := ⟨max_x - inset_x, max_y - inset_y, height + lower_height⟩
  let m3 : Point3 := ⟨min_x + inset_x, max_y - inset_y, height + lower_height⟩
  [[c0, c1, m1, m0], [c1, c2, m2, m1], [c2, c3, m3, m2], [c3, c0, m0, m3],
   [m0, m1, m2, m3]]

/-- `create_butterfly_roof` (src/Nevim.py lines 301-335): two quadrilaterals
sloping from the outer ridges down to the central valley at
`height + roof_height - valley_depth`. -/
def create_butterfly_roof (footprint : List Point3) (height : ℝ)
    (roof_height : ℝ := 2) (valley_depth : ℝ := 1) : List Face :=
  let min_x := minX footprint
  let max_x := maxX footprint
  let min_y := minY footprint
  let max_y := maxY footprint
  let center_x := (min_x + max_x) / 2
  let valley_pt1 : Point3 := ⟨center_x, min_y, height + roof_height - valley_depth⟩
  let valley_pt2 : Point3 := ⟨center_x, max_y, height + roof_height - valley_depth⟩
  let ridge_pt1 : Point3 := ⟨min_x, min_y, height + roof_height⟩
  let ridge_pt2 : Point3 := ⟨max_x, min_y, height + roof_height⟩
  let ridge_pt3 : Point3 := ⟨max_x, max_y, height + roof_height⟩
  let ridge_pt4 : Point3 := ⟨min_x, max_y, height + roof_height⟩
  [[ridge_pt1, valley_pt1, valley_pt2, ridge_pt4],
   [valley_pt1, ridge_pt2, ridge_pt3, valley_pt2]]

/-- Number of sawtooth sections: `max(2, int(width / section_width))`
(src/Nevim.py line 348).  For nonnegative `width` and positive
`section_width`, Python's `int` truncation coincides with `Int.floor`; for a
negative quotient both truncation and floor are clamped away by the
`max 2` and `Int.toNat`. -/
def numSections (width section_width : ℝ) : ℕ :=
  max 2 (⌊width / section_width⌋).toNat

/-- `create_sawtooth_roof` (src/Nevim.py lines 337-376): the width is split
into `numSections` equal strips; even strips slope up toward `min_x`-side
top edge, odd strips carry the vertical glazing profile.  The `slope_angle`
parameter is accepted but never used, exactly as in the source. -/
def create_sawtooth_roof (footprint : List Point3) (height : ℝ)
    (section_width : ℝ := 4) (roof_height : ℝ := 2) (slope_angle : ℝ := 30) :
    List Face :=
  let min_x := minX footprint
  let max_x := maxX footprint
  let min_y := minY footprint
  let max_y := maxY footprint
  let width := max_x - min_x
  let num_sections := numSections width section_width
  let sw := width / num_sections
  let _ := slope_angle
  (List.range num_sections).map (fun (i : ℕ) =>
    let x1 := min_x + (i : ℝ) * sw
    let x2 := min_x + ((i : ℝ) + 1) * sw
    if i % 2 = 0 then
      [⟨x1, min_y, height⟩, ⟨x2, min_y, height⟩,
       ⟨x2, max_y, height⟩, ⟨x1, max_y, height + roof_height⟩]
    else
      [⟨x1, min_y, height + roof_height⟩, ⟨x2, min_y, height⟩,
       ⟨x2, max_y, height⟩, ⟨x1, max_y, height + roof_height⟩])

/-- `create_curved_roof` (src/Nevim.py lines 378-412): half-sine profile
approximated by `num_segments` quadrilateral strips. -/
def create_curved_roof (footprint : List Point3) (height : ℝ)
    (roof_height : ℝ := 3) (num_segments : ℕ := 8) : List Face :=
  let min_x := minX footprint
  let max_x := maxX footprint
  let min_y := minY footprint
  let max_y := maxY footprint
  let center_x := (min_x + max_x) / 2
  let width := max_x - min_x
  (List.range num_segments).map (fun (i : ℕ) =>
    let angle1 := Real.pi * (i : ℝ) / num_segments
    let angle2 := Real.pi * ((i : ℝ) + 1) / num_segments
    let height1 := height + roof_height * Real.sin angle1
    let height2 := height + roof_height * Real.sin angle2
    let x1 := center_x - (width / 2) * Real.cos angle1
    let x2 := center_x - (width / 2) * Real.cos angle2
    [⟨x1, min_y, height1⟩, ⟨x2, min_y, height2⟩,
     ⟨x2, max_y, height2⟩, ⟨x1, max_y, height1⟩])

/-- Typical panel width in metres (src/Nevim.py line 432). -/
def panelWidth : ℝ := 17/10

/-- Typical panel height in metres (src/Nevim.py line 433). -/
def panelHeight : ℝ := 1

/-- Panel thickness (src/Nevim.py line 434). -/
def panelThickness : ℝ := 1/20

/-- Gap between panels (src/Nevim.py line 472). -/
def panelSpacing : ℝ := 1/10

/-- `max_panels_x = int(width / panel_width)` (src/Nevim.py line 437). -/
def maxPanelsX (width : ℝ) : ℕ := (⌊width / panelWidth⌋).toNat

/-- `max_panels_y = int(depth / panel_height)` (src/Nevim.py line 438). -/
def maxPanelsY (depth : ℝ) : ℕ := (⌊depth / panelHeight⌋).toNat

/-- `num_panels = int(total_max_panels * coverage)` (src/Nevim.py line 442). -/
def numPanels (nx ny : ℕ) (coverage : ℝ) : ℕ :=
  (⌊((nx * ny : ℕ) : ℝ) * coverage⌋).toNat

/-- Row-major candidate slots of the placement double loop
(src/Nevim.py lines 474-475). -/
def panelSlots (nx ny : ℕ) : List (ℕ × ℕ) :=
  (List.range nx).flatMap (fun i => (List.range ny).map (fun j => (i, j)))

/-- One panel rectangle at slot `(i, j)` (src/Nevim.py lines 477-503):
flat at `height + panelThickness`, with the two "far" vertices (chosen by
orientation) raised by `panel_dimension * sin(tilt_angle)`.  Orientations
other than the four cardinal strings get no tilt branch, as in the source. -/
def panelFace (min_x min_y height tilt_angle : ℝ) (orientation : String)
    (i j : ℕ) : Face :=
  let ox := min_x + i * (panelWidth + panelSpacing)
  let oy := min_y + j * (panelHeight + panelSpacing)
  let z0 := height + panelThickness
  let lift_h := panelHeight * Real.sin (radians tilt_angle)
  let lift_w := panelWidth * Real.sin (radians tilt_angle)
  if orientation = "south" then
    [⟨ox, oy, z0⟩, ⟨ox + panelWidth, oy, z0⟩,
     ⟨ox + panelWidth, oy + panelHeight, z0 + lift_h⟩,
     ⟨ox, oy + panelHeight, z0 + lift_h⟩]
  else if orientation = "north" then
    [⟨ox, oy, z0 + lift_h⟩, ⟨ox + panelWidth, oy, z0 + lift_h⟩,
     ⟨ox + panelWidth, oy + panelHeight, z0⟩, ⟨ox, oy + panelHeight, z0⟩]
  else if orientation = "east" then
    [⟨ox, oy, z0⟩, ⟨ox + panelWidth, oy, z0 + lift_w⟩,
     ⟨ox + panelWidth, oy + panelHeight, z0 + lift_w⟩, ⟨ox, oy + panelHeight, z0⟩]
  else if orientation = "west" then
    [⟨ox, oy, z0 + lift_w⟩, ⟨ox + panelWidth, oy, z0⟩,
     ⟨ox + panelWidth, oy + panelHeight, z0⟩, ⟨ox, oy + panelHeight, z0 + lift_w⟩]
  else
    [⟨ox, oy, z0⟩, ⟨ox + panelWidth, oy, z0⟩,
     ⟨ox + panelWidth, oy + panelHeight, z0⟩, ⟨ox, oy + panelHeight, z0⟩]

/-- `create_solar_roof` (src/Nevim.py lines 414-507): a flat roof plus the
first `numPanels` candidate slots instantiated in row-major order from the
footprint's minimum corner. -/
def create_solar_roof (footprint : List Point3) (height : ℝ)
    (tilt_angle : ℝ := 15) (orientation : String := "south")
    (coverage : ℝ := 4/5) : List Face × List Face :=
  let min_x := minX footprint
  let max_x := maxX footprint
  let min_y := minY footprint
  let max_y := maxY footprint
  let width := max_x - min_x
  let depth := max_y - min_y
  let nx := maxPanelsX width
  let ny := maxPanelsY depth
  let n := numPanels nx ny coverage
  ([create_flat_roof footprint height],
   ((panelSlots nx ny).take n).map
     (fun ij => panelFace min_x min_y height tilt_angle orientation ij.1 ij.2))

/-- The ad hoc parameter dictionary passed to `create_roof`: absent keys are
`none`, and each `roof_params.get(key, default)` call supplies its own
default at the use site. -/
structure RoofParams where
  roof_thickness : Option ℝ := none
  slope : Option ℝ := none
  roof_height : Option ℝ := none
  axis : Option String := none
  slope_angle : Option ℝ := none
  slope_direction : Option String := none
  lower_slope : Option ℝ := none
  upper_slope : Option ℝ := none
  valley_depth : Option ℝ := none
  section_width : Option ℝ := none
  num_segments : Option ℕ := none
  tilt_angle : Option ℝ := none
  orientation : Option String := none
  coverage : Option ℝ := none

/-- `create_roof` (src/Nevim.py lines 509-605): string-keyed dispatch on the
roof type, unknown types falling back to a flat roof.  Returns
`(roof faces, solar panel faces)`.  No validation of any dimension or
parameter is performed anywhere on this path, mirroring the source. -/
def create_roof (footprint : List Point3) (height : ℝ) (roof_type : String)
    (roof_params : RoofParams := {}) : List Face × List Face :=
  if roof_type = "flat" then
    ([create_flat_roof footprint height
        (roof_params.roof_thickness.getD (3/10)) (roof_params.slope.getD 0)], [])
  else if roof_type = "gable" then
    (create_gable_roof footprint height (roof_params.roof_height.getD 3)
        (roof_params.axis.getD "y") (roof_params.slope_angle.getD 30), [])
  else if roof_type = "hip" then
    (create_hip_roof footprint height (roof_params.roof_height.getD (5/2))
        (roof_params.slope_angle.getD 25), [])
  else if roof_type = "pyramid" then
    (create_pyramid_roof footprint height (roof_params.roof_height.getD 4), [])
  else if roof_type = "shed" then
    ([create_shed_roof footprint height (roof_params.roof_height.getD 2)
        (roof_params.slope_direction.getD "north") roof_params.slope_angle], [])
  else if roof_type = "mansard" then
    (create_mansard_roof footprint height (roof_params.roof_height.getD 3)
        (roof_params.lower_slope.getD 70) (roof_params.upper_slope.getD 30), [])
  else if roof_type = "butterfly" then
    (create_butterfly_roof footprint height (roof_params.roof_height.getD 2)
        (roof_params.valley_depth.getD 1), [])
  else if roof_type = "sawtooth" then
    (create_sawtooth_roof footprint height (roof_params.section_width.getD 4)
        (roof_params.roof_height.getD 2) (roof_params.slope_angle.getD 30), [])
  else if roof_type = "curved" then
    (create_curved_roof footprint height (roof_params.roof_height.getD 3)
        (roof_params.num_segments.getD 8), [])
  else if roof_type = "solar" then
    create_solar_roof footprint height (roof_params.tilt_angle.getD 15)
        (roof_params.orientation.getD "south") (roof_params.coverage.getD (4/5))
  else
    ([create_flat_roof footprint height (3/10)], [])

/-! Solar-suitability scorer, from src/testovani_08_05.py. -/

/-- The per-roof record dictionary built up by `calculate_roof_properties`,
`analyze_solar_access` and `calculate_solar_potential`; fields that a stage
has not yet filled in hold 0. -/
structure RoofProps where
  normal : Point3
  area : ℝ
  tilt : ℝ := 0
  azimuth : ℝ := 0
  sun_hours : ℕ := 0
  sun_access_percent : ℝ := 0
  weighted_hours : ℝ := 0
  suitability : ℝ := 0
  annual_insolation : ℝ := 0
  energy_production : ℝ := 0

/-- The up vector (src/testovani_08_05.py line 105). -/
def upVec : Point3 := ⟨0, 0, 1⟩

/-- The north vector (src/testovani_08_05.py line 110). -/
def northVec : Point3 := ⟨0, 1, 0⟩

/-- Roof tilt in degrees (src/testovani_08_05.py lines 104-107, 132):
`90 - degrees(angle(normal, up))`. -/
def calc_tilt (normal : Point3) : ℝ :=
  90 - angleBetween normal upVec * 180 / Real.pi

/-- Roof azimuth in degrees (src/testovani_08_05.py lines 109-123): 0 for a
near-horizontal normal, otherwise the angle of the normalized horizontal
projection from north, mirrored to `360 - angle` when `normal.x < 0`. -/
def calc_azimuth (normal : Point3) : ℝ :=
  let normal_horiz : Point3 := ⟨normal.x, normal.y, 0⟩
  if magnitude normal_horiz < 1/1000 then 0
  else
    let nh := normalizeVec normal_horiz
    let azimuth := angleBetween nh northVec * 180 / Real.pi
    if normal.x < 0 then 360 - azimuth else azimuth

/-- One record of `calculate_roof_properties` (src/testovani_08_05.py
lines 94-137), taking the externally computed normal and area. -/
def roof_props_of (normal : Point3) (area : ℝ) : RoofProps :=
  { normal := normal, area := area,
    tilt := calc_tilt normal, azimuth := calc_azimuth normal }

/-- `calculate_roof_properties` over a batch of (normal, area) pairs. -/
def calculate_roof_properties (faces : List (Point3 × ℝ)) : List RoofProps :=
  faces.map (fun na => roof_props_of na.1 na.2)

/-- One sun-direction sample from the external solar-position provider:
the sun vector and the sun altitude in degrees. -/
structure SunSample where
  sun_vector : Point3
  altitude : ℝ

/-- The per-roof accumulation loop of `analyze_solar_access`
(src/testovani_08_05.py lines 156-177): for each sample with positive
altitude whose incidence angle is below 90 degrees, count one sunlit hour
and add `cos(angle) * sin(altitude)`. -/
def accumulateExposure (normal : Point3) (samples : List SunSample) : ℕ × ℝ :=
  samples.foldl (fun acc s =>
    if 0 < s.altitude then
      let angle := angleBetween normal (reverseVec s.sun_vector)
      if angle < Real.pi / 2 then
        (acc.1 + 1, acc.2 + Real.cos angle * Real.sin (radians s.altitude))
      else acc
    else acc) (0, 0)

/-- The body of `analyze_solar_access` for one roof (src/testovani_08_05.py
lines 151-185).  The percentage `solar_access_hours / len(hoys) * 100`
divides by the number of samples, so an empty sample set raises a
`ZeroDivisionError`, modelled as `Except.error`. -/
def analyze_roof (samples : List SunSample) (roof : RoofProps) :
    Except Unit RoofProps :=
  let acc := accumulateExposure roof.normal samples
  if samples.length = 0 then Except.error ()
  else Except.ok
    { roof with
      sun_hours := acc.1,
      sun_access_percent := (acc.1 : ℝ) / (samples.length : ℝ) * 100,
      weighted_hours := acc.2 }

/-- `analyze_solar_access` (src/testovani_08_05.py lines 139-187) over the
batch: roofs are processed in order and the first `ZeroDivisionError`
aborts the whole call. -/
def analyze_solar_access (roofs : List RoofProps) (samples : List SunSample) :
    Except Unit (List RoofProps) :=
  roofs.mapM (analyze_roof samples)

/-- `1 - min(abs(tilt - 35), 90) / 90` (src/testovani_08_05.py line 201). -/
def tiltFactor (tilt : ℝ) : ℝ := 1 - min |tilt - 35| 90 / 90

/-- `1 - min(abs(azimuth - 180), 180) / 180` (src/testovani_08_05.py
line 204). -/
def azimuthFactor (azimuth : ℝ) : ℝ := 1 - min |azimuth - 180| 180 / 180

/-- Minimum of `weighted_hours` over a batch (src/testovani_08_05.py
line 194); junk 0 on the empty batch, which the caller never uses. -/
def minWeighted : List RoofProps → ℝ
  | [] => 0
  | r :: rs => rs.foldl (fun a x => min a x.weighted_hours) r.weighted_hours

/-- Maximum of `weighted_hours` over a batch (src/testovani_08_05.py
line 193). -/
def maxWeighted : List RoofProps → ℝ
  | [] => 0
  | r :: rs => rs.foldl (fun a x => max a x.weighted_hours) r.weighted_hours

/-- The per-roof update of `calculate_solar_potential`
(src/testovani_08_05.py lines 199-222). -/
def scoreRoof (minW rangeW : ℝ) (roof : RoofProps) : RoofProps :=
  let tf := tiltFactor roof.tilt
  let af := azimuthFactor roof.azimuth
  let wf := (roof.weighted_hours - minW) / rangeW
  let suit := 1/4 * tf + 1/4 * af + 1/2 * wf
  let insolation := 1050 * suit
  { roof with
    suitability := suit,
    annual_insolation := insolation,
    energy_production := insolation * roof.area * (1/5) }

instance : DecidableRel (fun a b : RoofProps => b.suitability ≤ a.suitability) :=
  fun _ _ => Real.decidableLE _ _

/-- `calculate_solar_potential` (src/testovani_08_05.py lines 189-226):
min-max normalization of the weighted hours over the batch (range clamped
below by 0.001), the weighted factor combined 0.25/0.25/0.5 with the tilt
and azimuth factors, then the batch sorted by descending suitability. -/
def calculate_solar_potential : List RoofProps → List RoofProps
  | [] => []
  | r :: rs =>
    let minW := minWeighted (r :: rs)
    let maxW := maxWeighted (r :: rs)
    let rangeW := max (maxW - minW) (1/1000)
    ((r :: rs).map (scoreRoof minW rangeW)).insertionSort
      (fun a b => b.suitability ≤ a.suitability)

/-- The fallback values substituted by `main` when the sun analysis fails
(src/testovani_08_05.py lines 386-389). -/
def zeroExposure (r : RoofProps) : RoofProps :=
  { r with sun_hours := 0, sun_access_percent := 0, weighted_hours := 0 }

/-- Modelled from `main` (src/testovani_08_05.py lines 378-394): the sun
analysis is attempted; on failure every roof gets `sun_hours = 0`,
`sun_access_percent = 0`, `weighted_hours = 0` and scoring proceeds. -/
def solar_pipeline (roofs : List RoofProps) (samples : List SunSample) :
    List RoofProps :=
  match analyze_solar_access roofs samples with
  | Except.ok rs => calculate_solar_potential rs
  | Except.error _ => calculate_solar_potential (roofs.map zeroExposure)

/-- x-extent of the first edge of a face: the width of one sawtooth
section as generated (both parities put `x1` in vertex 0 and `x2` in
vertex 1). -/
def sectionSpan : Face → ℝ
  | a :: b :: _ => b.x - a.x
  | _ => 0

/-! Bounding-box evaluation on rectangular footprints. -/

theorem minX_rect (x0 y0 z0 w d : ℝ) (hw : 0 ≤ w) :
    minX (rectFootprint x0 y0 z0 w d) = x0 := by
  show min (min (min x0 (x0 + w)) (x0 + w)) x0 = x0
  have h1 : min x0 (x0 + w) = x0 := min_eq_left (by linarith)
  rw [h1, h1, min_self]

theorem maxX_rect (x0 y0 z0 w d : ℝ) (hw : 0 ≤ w) :
    maxX (rectFootprint x0 y0 z0 w d) = x0 + w := by
  show max (max (max x0 (x0 + w)) (x0 + w)) x0 = x0 + w
  have h1 : max x0 (x0 + w) = x0 + w := max_eq_right (by linarith)
  rw [h1, max_self, max_eq_left (by linarith)]

theorem minY_rect (x0 y0 z0 w d : ℝ) (hd : 0 ≤ d) :
    minY (rectFootprint x0 y0 z0 w d) = y0 := by
  show min (min (min y0 y0) (y0 + d)) (y0 + d) = y0
  have h1 : min y0 (y0 + d) = y0 := min_eq_left (by linarith)
  rw [min_self, h1, h1]

theorem maxY_rect (x0 y0 z0 w d : ℝ) (hd : 0 ≤ d) :
    maxY (rectFootprint x0 y0 z0 w d) = y0 + d := by
  show max (max (max y0 y0) (y0 + d)) (y0 + d) = y0 + d
  have h1 : max y0 (y0 + d) = y0 + d := max_eq_right (by linarith)
  rw [max_self, h1, max_self]

/-- Claim C4: for every footprint, base height and roof height, the Pyramid
generator returns exactly the faces of the Hip generator at its default
25-degree slope angle (the delegation at src/Nevim.py line 186 passes no
slope angle): the same number of faces, in the same order, with identical
vertex lists. -/
theorem pyramid_is_hip_alias (footprint : List Point3) (height roof_height : ℝ) :
    create_pyramid_roof footprint height roof_height =
      create_hip_roof footprint height roof_height 25 := rfl

/-- Claim C3 (amended): `create_roof` performs no dimension validation at
all.  For every footprint and height, including zero or negative widths,
depths and heights, no error is reported and the dispatched generator runs
on the given footprint, producing its usual face count: 4 faces for gable,
1 for flat, 4 for hip. -/
theorem create_roof_no_validation (footprint : List Point3) (height : ℝ)
    (params : RoofParams) :
    ((create_roof footprint height "gable" params).1.length = 4 ∧
      (create_roof footprint height "gable" params).2 = []) ∧
    (create_roof footprint height "flat" params).1.length = 1 ∧
    (create_roof footprint height "hip" params).1.length = 4 := by
  refine ⟨⟨?_, rfl⟩, rfl, rfl⟩
  show (create_gable_roof footprint height (params.roof_height.getD 3)
    (params.axis.getD "y") (params.slope_angle.getD 30)).length = 4
  unfold create_gable_roof
  split <;> rfl

/-- Claim C3 counterexample: a synthesis request with a zero-width
footprint and a negative building height is not rejected — `create_roof`
produces the gable generator's 4 faces anyway, so no configuration error is
reported and face generation does happen. -/
theorem create_roof_degenerate_accepted :
    (create_roof (rectFootprint 0 0 0 0 10) (-5) "gable" {}).1.length = 4 ∧
    (create_roof (rectFootprint 0 0 0 0 10) (-5) "gable" {}).1 ≠ [] := by
  constructor
  · show (create_gable_roof (rectFootprint 0 0 0 0 10) (-5) 3 "y" 30).length = 4
    unfold create_gable_roof
    split <;> rfl
  · show create_gable_roof (rectFootprint 0 0 0 0 10) (-5) 3 "y" 30 ≠ []
    unfold create_gable_roof
    split <;> simp

/-- Claim C10: the Pyramid generator's apex sits at
`z = base_height + max(roof_height, min(width, depth)/2 * tan(25°))`: the
delegation to Hip passes no slope angle, so Hip's default 25-degree angle
is a floor on the apex height that no Pyramid parameter can change, and a
requested `roof_height` below that floor is silently raised by the `max`. -/
theorem pyramid_apex_height (x0 y0 z0 w d h rh : ℝ) (hw : 0 ≤ w) (hd : 0 ≤ d) :
    create_pyramid_roof (rectFootprint x0 y0 z0 w d) h rh =
      [[⟨x0, y0, h⟩, ⟨x0 + w, y0, h⟩,
        ⟨x0 + w / 2, y0 + d / 2, h + max rh (min w d / 2 * Real.tan (radians 25))⟩],
       [⟨x0 + w, y0, h⟩, ⟨x0 + w, y0 + d, h⟩,
        ⟨x0 + w / 2, y0 + d / 2, h + max rh (min w d / 2 * Real.tan (radians 25))⟩],
       [⟨x0 + w, y0 + d, h⟩, ⟨x0, y0 + d, h⟩,
        ⟨x0 + w / 2, y0 + d / 2, h + max rh (min w d / 2 * Real.tan (radians 25))⟩],
       [⟨x0, y0 + d, h⟩, ⟨x0, y0, h⟩,
        ⟨x0 + w / 2, y0 + d / 2, h + max rh (min w d / 2 * Real.tan (radians 25))⟩]] := by
  simp only [create_pyramid_roof, create_hip_roof, minX_rect x0 y0 z0 w d hw,
    maxX_rect x0 y0 z0 w d hw, minY_rect x0 y0 z0 w d hd, maxY_rect x0 y0 z0 w d hd]
  have h1 : x0 + w - x0 = w := by ring
  have h2 : y0 + d - y0 = d := by ring
  have h3 : (x0 + (x0 + w)) / 2 = x0 + w / 2 := by ring
  have h4 : (y0 + (y0 + d)) / 2 = y0 + d / 2 := by ring
  rw [h1, h2, h3, h4]

/-- Claim C10 witness: concrete pyramid on a 10 by 6 footprint. -/
theorem pyramid_apex_height_witness :
    (0:ℝ) ≤ 10 ∧ (0:ℝ) ≤ 6 ∧
    create_pyramid_roof (rectFootprint 0 0 0 10 6) 8 1 =
      [[⟨0, 0, 8⟩, ⟨10, 0, 8⟩,
        ⟨0 + 10 / 2, 0 + 6 / 2, 8 + max 1 (min 10 6 / 2 * Real.tan (radians 25))⟩],
       [⟨10, 0, 8⟩, ⟨10, 6, 8⟩,
        ⟨0 + 10 / 2, 0 + 6 / 2, 8 + max 1 (min 10 6 / 2 * Real.tan (radians 25))⟩],
       [⟨10, 6, 8⟩, ⟨0, 6, 8⟩,
        ⟨0 + 10 / 2, 0 + 6 / 2, 8 + max 1 (min 10 6 / 2 * Real.tan (radians 25))⟩],
       [⟨0, 6, 8⟩, ⟨0, 0, 8⟩,
        ⟨0 + 10 / 2, 0 + 6 / 2, 8 + max 1 (min 10 6 / 2 * Real.tan (radians 25))⟩]] := by
  refine ⟨by norm_num, by norm_num, ?_⟩
  have := pyramid_apex_height 0 0 0 10 6 8 1 (by norm_num) (by norm_num)
  simpa using this

/-- The ridge height the Gable generator actually uses for a given explicit
height, half-span, and slope angle. -/
theorem gable_roof_y_axis (x0 y0 z0 w d h rh θ : ℝ) (hw : 0 ≤ w) (hd : 0 ≤ d) :
    create_gable_roof (rectFootprint x0 y0 z0 w d) h rh "y" θ =
      [[⟨x0, y0, h⟩, ⟨x0, y0 + d, h⟩,
        ⟨x0 + w / 2, y0 + d, h + max rh (w / 2 * Real.tan (radians θ))⟩,
        ⟨x0 + w / 2, y0, h + max rh (w / 2 * Real.tan (radians θ))⟩],
       [⟨x0 + w, y0, h⟩, ⟨x0 + w, y0 + d, h⟩,
        ⟨x0 + w / 2, y0 + d, h + max rh (w / 2 * Real.tan (radians θ))⟩,
        ⟨x0 + w / 2, y0, h + max rh (w / 2 * Real.tan (radians θ))⟩],
       [⟨x0, y0, h⟩, ⟨x0 + w, y0, h⟩,
        ⟨x0 + w / 2, y0, h + max rh (w / 2 * Real.tan (radians θ))⟩],
       [⟨x0, y0 + d, h⟩, ⟨x0 + w, y0 + d, h⟩,
        ⟨x0 + w / 2, y0 + d, h + max rh (w / 2 * Real.tan (radians θ))⟩]] := by
  simp only [create_gable_roof, minX_rect x0 y0 z0 w d hw, maxX_rect x0 y0 z0 w d hw,
    minY_rect x0 y0 z0 w d hd, maxY_rect x0 y0 z0 w d hd, if_true, eq_self_iff_true]
  have h1 : x0 + w - x0 = w := by ring
  have h3 : (x0 + (x0 + w)) / 2 = x0 + w / 2 := by ring
  rw [h1, h3]

/-- The Gable generator with the ridge along the x axis. -/
theorem gable_roof_x_axis (x0 y0 z0 w d h rh θ : ℝ) (hw : 0 ≤ w) (hd : 0 ≤ d) :
    create_gable_roof (rectFootprint x0 y0 z0 w d) h rh "x" θ =
      [[⟨x0, y0, h⟩, ⟨x0 + w, y0, h⟩,
        ⟨x0 + w, y0 + d / 2, h + max rh (d / 2 * Real.tan (radians θ))⟩,
        ⟨x0, y0 + d / 2, h + max rh (d / 2 * Real.tan (radians θ))⟩],
       [⟨x0, y0 + d, h⟩, ⟨x0 + w, y0 + d, h⟩,
        ⟨x0 + w, y0 + d / 2, h + max rh (d / 2 * Real.tan (radians θ))⟩,
        ⟨x0, y0 + d / 2, h + max rh (d / 2 * Real.tan (radians θ))⟩],
       [⟨x0, y0, h⟩, ⟨x0, y0 + d, h⟩,
        ⟨x0, y0 + d / 2, h + max rh (d / 2 * Real.tan (radians θ))⟩],
       [⟨x0 + w, y0, h⟩, ⟨x0 + w, y0 + d, h⟩,
        ⟨x0 + w, y0 + d / 2, h + max rh (d / 2 * Real.tan (radians θ))⟩]] := by
  simp only [create_gable_roof, minX_rect x0 y0 z0 w d hw, maxX_rect x0 y0 z0 w d hw,
    minY_rect x0 y0 z0 w d hd, maxY_rect x0 y0 z0 w d hd]
  rw [if_neg (by decide), if_neg (by decide)]
  have h2 : y0 + d - y0 = d := by ring
  have h4 : (y0 + (y0 + d)) / 2 = y0 + d / 2 := by ring
  rw [h2, h4]

/-- On the 10 by 10 scenario (slope 30°), the angle-derived ridge height
`5 * tan(30°) = 5/√3 ≈ 2.89` loses to the explicit height 4. -/
theorem gable_scenario_max : max (4:ℝ) (10 / 2 * Real.tan (radians 30)) = 4 := by
  have hrad : radians 30 = Real.pi / 6 := by
    unfold radians; ring
  rw [hrad, Real.tan_pi_div_six]
  have hs3pos : 0 < Real.sqrt 3 := Real.sqrt_pos.mpr (by norm_num)
  have h54 : (5:ℝ) / 4 ≤ Real.sqrt 3 :=
    (Real.le_sqrt (by norm_num) (by norm_num)).mpr (by norm_num)
  have hle : (10:ℝ) / 2 * (1 / Real.sqrt 3) ≤ 4 := by
    rw [mul_one_div, div_le_iff hs3pos]
    linarith
  exact max_eq_left hle

/-- Claim C5: the Gable generator places the ridge at
`z = base_height + max(explicit_roof_height, half_span * tan(slope_angle))`
(half the extent perpendicular to the chosen ridge axis) and returns exactly
4 faces: two quadrilateral slope faces meeting at the ridge followed by two
triangular gable-end faces — for both ridge axes.  In particular, on the
10 by 10 footprint at the origin with `height = 10`, `roof_height = 4`,
`axis = y`, `slope_angle = 30`, the angle-derived height `5·tan 30° ≈ 2.89`
loses the `max` and the ridge lies at `z = 14`. -/
theorem gable_roof_spec (x0 y0 z0 w d h rh θ : ℝ) (hw : 0 ≤ w) (hd : 0 ≤ d) :
    (create_gable_roof (rectFootprint x0 y0 z0 w d) h rh "y" θ =
      [[⟨x0, y0, h⟩, ⟨x0, y0 + d, h⟩,
        ⟨x0 + w / 2, y0 + d, h + max rh (w / 2 * Real.tan (radians θ))⟩,
        ⟨x0 + w / 2, y0, h + max rh (w / 2 * Real.tan (radians θ))⟩],
       [⟨x0 + w, y0, h⟩, ⟨x0 + w, y0 + d, h⟩,
        ⟨x0 + w / 2, y0 + d, h + max rh (w / 2 * Real.tan (radians θ))⟩,
        ⟨x0 + w / 2, y0, h + max rh (w / 2 * Real.tan (radians θ))⟩],
       [⟨x0, y0, h⟩, ⟨x0 + w, y0, h⟩,
        ⟨x0 + w / 2, y0, h + max rh (w / 2 * Real.tan (radians θ))⟩],
       [⟨x0, y0 + d, h⟩, ⟨x0 + w, y0 + d, h⟩,
        ⟨x0 + w / 2, y0 + d, h + max rh (w / 2 * Real.tan (radians θ))⟩]]) ∧
    (create_gable_roof (rectFootprint x0 y0 z0 w d) h rh "x" θ =
      [[⟨x0, y0, h⟩, ⟨x0 + w, y0, h⟩,
        ⟨x0 + w, y0 + d / 2, h + max rh (d / 2 * Real.tan (radians θ))⟩,
        ⟨x0, y0 + d / 2, h + max rh (d / 2 * Real.tan (radians θ))⟩],
       [⟨x0, y0 + d, h⟩, ⟨x0 + w, y0 + d, h⟩,
        ⟨x0 + w, y0 + d / 2, h + max rh (d / 2 * Real.tan (radians θ))⟩,
        ⟨x0, y0 + d / 2, h + max rh (d / 2 * Real.tan (radians θ))⟩],
       [⟨x0, y0, h⟩, ⟨x0, y0 + d, h⟩,
        ⟨x0, y0 + d / 2, h + max rh (d / 2 * Real.tan (radians θ))⟩],
       [⟨x0 + w, y0, h⟩, ⟨x0 + w, y0 + d, h⟩,
        ⟨x0 + w, y0 + d / 2, h + max rh (d / 2 * Real.tan (radians θ))⟩]]) ∧
    create_gable_roof (rectFootprint 0 0 0 10 10) 10 4 "y" 30 =
      [[⟨0, 0, 10⟩, ⟨0, 10, 10⟩, ⟨5, 10, 14⟩, ⟨5, 0, 14⟩],
       [⟨10, 0, 10⟩, ⟨10, 10, 10⟩, ⟨5, 10, 14⟩, ⟨5, 0, 14⟩],
       [⟨0, 0, 10⟩, ⟨10, 0, 10⟩, ⟨5, 0, 14⟩],
       [⟨0, 10, 10⟩, ⟨10, 10, 10⟩, ⟨5, 10, 14⟩]] := by
  refine ⟨gable_roof_y_axis x0 y0 z0 w d h rh θ hw hd,
    gable_roof_x_axis x0 y0 z0 w d h rh θ hw hd, ?_⟩
  rw [gable_roof_y_axis 0 0 0 10 10 10 4 30 (by norm_num) (by norm_num),
    gable_scenario_max]
  norm_num

/-- Claim C5 witness: the gable theorem applied on a 3 by 4 footprint. -/
theorem gable_roof_spec_witness :
    (0:ℝ) ≤ 3 ∧ (0:ℝ) ≤ 4 ∧
    (create_gable_roof (rectFootprint 1 2 0 3 4) 10 2 "y" 20).length = 4 := by
  refine ⟨by norm_num, by norm_num, ?_⟩
  rw [(gable_roof_spec 1 2 0 3 4 10 2 20 (by norm_num) (by norm_num)).1]
  rfl

/-- Claim C6: when the Shed generator is given an explicit slope angle, the
roof rise is `span * tan(angle)` regardless of the explicit `roof_height`
parameter (which is quantified here and absent from the right-hand sides):
span is the y-extent for directions north/south and the x-extent for
east/west, and the high edge sits on the side named by the direction.  In
particular for width 10, depth 6, direction north, angle 25°, the high edge
at `y = max_y` has `z = height + 6 * tan 25°` and the low edge stays at
`z = height`. -/
theorem shed_roof_spec (x0 y0 z0 w d h rh θ : ℝ) (hw : 0 ≤ w) (hd : 0 ≤ d) :
    (create_shed_roof (rectFootprint x0 y0 z0 w d) h rh "north" (some θ) =
      [⟨x0, y0, h⟩, ⟨x0 + w, y0, h⟩,
       ⟨x0 + w, y0 + d, h + d * Real.tan (radians θ)⟩,
       ⟨x0, y0 + d, h + d * Real.tan (radians θ)⟩]) ∧
    (create_shed_roof (rectFootprint x0 y0 z0 w d) h rh "south" (some θ) =
      [⟨x0, y0, h + d * Real.tan (radians θ)⟩,
       ⟨x0 + w, y0, h + d * Real.tan (radians θ)⟩,
       ⟨x0 + w, y0 + d, h⟩, ⟨x0, y0 + d, h⟩]) ∧
    (create_shed_roof (rectFootprint x0 y0 z0 w d) h rh "east" (some θ) =
      [⟨x0, y0, h⟩, ⟨x0 + w, y0, h + w * Real.tan (radians θ)⟩,
       ⟨x0 + w, y0 + d, h + w * Real.tan (radians θ)⟩, ⟨x0, y0 + d, h⟩]) ∧
    (create_shed_roof (rectFootprint x0 y0 z0 w d) h rh "west" (some θ) =
      [⟨x0, y0, h + w * Real.tan (radians θ)⟩, ⟨x0 + w, y0, h⟩,
       ⟨x0 + w, y0 + d, h⟩, ⟨x0, y0 + d, h + w * Real.tan (radians θ)⟩]) ∧
    create_shed_roof (rectFootprint 0 0 0 10 6) 10 2 "north" (some 25) =
      [⟨0, 0, 10⟩, ⟨10, 0, 10⟩, ⟨10, 6, 10 + 6 * Real.tan (radians 25)⟩,
       ⟨0, 6, 10 + 6 * Real.tan (radians 25)⟩] := by
  have h1 : x0 + w - x0 = w := by ring
  have h2 : y0 + d - y0 = d := by ring
  refine ⟨?_, ?_, ?_, ?_, ?_⟩
  · simp only [create_shed_roof, minX_rect x0 y0 z0 w d hw, maxX_rect x0 y0 z0 w d hw,
      minY_rect x0 y0 z0 w d hd, maxY_rect x0 y0 z0 w d hd]
    simp only [true_or, if_true]
    rw [h2]
  · simp only [create_shed_roof, minX_rect x0 y0 z0 w d hw, maxX_rect x0 y0 z0 w d hw,
      minY_rect x0 y0 z0 w d hd, maxY_rect x0 y0 z0 w d hd]
    rw [if_neg (show ¬("south" = "north") by decide)]
    simp only [or_true, if_true]
    rw [h2]
  · simp only [create_shed_roof, minX_rect x0 y0 z0 w d hw, maxX_rect x0 y0 z0 w d hw,
      minY_rect x0 y0 z0 w d hd, maxY_rect x0 y0 z0 w d hd]
    rw [if_neg (show ¬("east" = "north" ∨ "east" = "south") by decide),
      if_neg (show ¬("east" = "north") by decide),
      if_neg (show ¬("east" = "south") by decide)]
    simp only [if_true]
    rw [h1]
  · simp only [create_shed_roof, minX_rect x0 y0 z0 w d hw, maxX_rect x0 y0 z0 w d hw,
      minY_rect x0 y0 z0 w d hd, maxY_rect x0 y0 z0 w d hd]
    rw [if_neg (show ¬("west" = "north" ∨ "west" = "south") by decide),
      if_neg (show ¬("west" = "north") by decide),
      if_neg (show ¬("west" = "south") by decide),
      if_neg (show ¬("west" = "east") by decide)]
    rw [h1]
  · simp only [create_shed_roof, minX_rect 0 0 0 10 6 (by norm_num),
      maxX_rect 0 0 0 10 6 (by norm_num), minY_rect 0 0 0 10 6 (by norm_num),
      maxY_rect 0 0 0 10 6 (by norm_num)]
    simp only [true_or, if_true]
    norm_num

/-- Claim C6 witness: shed theorem applied on a 10 by 6 footprint with an
explicit 25-degree slope. -/
theorem shed_roof_spec_witness :
    (0:ℝ) ≤ 10 ∧ (0:ℝ) ≤ 6 ∧
    create_shed_roof (rectFootprint 0 0 0 10 6) 5 99 "north" (some 25) =
      [⟨0, 0, 5⟩, ⟨10, 0, 5⟩, ⟨10, 6, 5 + 6 * Real.tan (radians 25)⟩,
       ⟨0, 6, 5 + 6 * Real.tan (radians 25)⟩] := by
  refine ⟨by norm_num, by norm_num, ?_⟩
  have h := (shed_roof_spec 0 0 0 10 6 5 99 25 (by norm_num) (by norm_num)).1
  norm_num at h
  exact h

/-- Structural form of the sawtooth generator on a rectangular footprint. -/
theorem sawtooth_rect_eq (x0 y0 z0 w d h sw rh θ : ℝ) (hw : 0 ≤ w) (hd : 0 ≤ d) :
    create_sawtooth_roof (rectFootprint x0 y0 z0 w d) h sw rh θ =
      (List.range (numSections w sw)).map (fun i =>
        if i % 2 = 0 then
          [⟨x0 + i * (w / (numSections w sw : ℕ)), y0, h⟩,
           ⟨x0 + (i + 1) * (w / (numSections w sw : ℕ)), y0, h⟩,
           ⟨x0 + (i + 1) * (w / (numSections w sw : ℕ)), y0 + d, h⟩,
           ⟨x0 + i * (w / (numSections w sw : ℕ)), y0 + d, h + rh⟩]
        else
          [⟨x0 + i * (w / (numSections w sw : ℕ)), y0, h + rh⟩,
           ⟨x0 + (i + 1) * (w / (numSections w sw : ℕ)), y0, h⟩,
           ⟨x0 + (i + 1) * (w / (numSections w sw : ℕ)), y0 + d, h⟩,
           ⟨x0 + i * (w / (numSections w sw : ℕ)), y0 + d, h + rh⟩]) := by
  simp only [create_sawtooth_roof, minX_rect x0 y0 z0 w d hw, maxX_rect x0 y0 z0 w d hw,
    minY_rect x0 y0 z0 w d hd, maxY_rect x0 y0 z0 w d hd]
  rw [show x0 + w - x0 = w from by ring]

/-- Sum of section spans over a list mapped through a face generator whose
spans are all equal. -/
theorem sum_sectionSpan_const {α : Type} (g : α → Face) (c : ℝ) :
    ∀ l : List α, (∀ i ∈ l, sectionSpan (g i) = c) →
      ((l.map g).map sectionSpan).sum = (l.length : ℝ) * c := by
  intro l
  induction l with
  | nil => intro _; simp
  | cons a l ih =>
      intro h
      have ha := h a (List.mem_cons_self a l)
      have hl := ih (fun i hi => h i (List.mem_cons_of_mem a hi))
      simp only [List.map_cons, List.sum_cons, hl, ha, List.length_cons]
      push_cast
      ring

/-- Claim C9: the Sawtooth generator produces
`max(2, floor(width / section_width))` sections, all of equal width
`width / numSections`, and the section widths sum back to the footprint
width exactly.  (`section_width = 0` would raise a `ZeroDivisionError` in
the source, hence the hypothesis.) -/
theorem sawtooth_sections_spec (x0 y0 z0 w d h sw rh θ : ℝ) (f : Face)
    (hw : 0 ≤ w) (hd : 0 ≤ d) (hsw : sw ≠ 0)
    (hf : f ∈ create_sawtooth_roof (rectFootprint x0 y0 z0 w d) h sw rh θ) :
    (create_sawtooth_roof (rectFootprint x0 y0 z0 w d) h sw rh θ).length =
      numSections w sw ∧
    sectionSpan f = w / numSections w sw ∧
    ((create_sawtooth_roof (rectFootprint x0 y0 z0 w d) h sw rh θ).map
      sectionSpan).sum = w := by
  have heq := sawtooth_rect_eq x0 y0 z0 w d h sw rh θ hw hd
  have hn2 : 2 ≤ numSections w sw := le_max_left _ _
  have hnpos : (0:ℝ) < (numSections w sw : ℕ) := by
    have : 0 < numSections w sw := lt_of_lt_of_le (by norm_num) hn2
    exact_mod_cast this
  have hspan : ∀ i : ℕ,
      sectionSpan (if i % 2 = 0 then
          [(⟨x0 + i * (w / (numSections w sw : ℕ)), y0, h⟩ : Point3),
           ⟨x0 + ((i : ℝ) + 1) * (w / (numSections w sw : ℕ)), y0, h⟩,
           ⟨x0 + ((i : ℝ) + 1) * (w / (numSections w sw : ℕ)), y0 + d, h⟩,
           ⟨x0 + i * (w / (numSections w sw : ℕ)), y0 + d, h + rh⟩]
        else
          [⟨x0 + i * (w / (numSections w sw : ℕ)), y0, h + rh⟩,
           ⟨x0 + ((i : ℝ) + 1) * (w / (numSections w sw : ℕ)), y0, h⟩,
           ⟨x0 + ((i : ℝ) + 1) * (w / (numSections w sw : ℕ)), y0 + d, h⟩,
           ⟨x0 + i * (w / (numSections w sw : ℕ)), y0 + d, h + rh⟩]) =
        w / (numSections w sw : ℕ) := by
    intro i
    by_cases hi : i % 2 = 0
    · simp only [if_pos hi, sectionSpan]; ring
    · simp only [if_neg hi, sectionSpan]; ring
  refine ⟨?_, ?_, ?_⟩
  · rw [heq, List.length_map, List.length_range]
  · rw [heq] at hf
    obtain ⟨i, _, rfl⟩ := List.mem_map.mp hf
    exact hspan i
  · rw [heq]
    rw [sum_sectionSpan_const _ (w / ((numSections w sw : ℕ) : ℝ))
      (List.range (numSections w sw)) (fun i _ => hspan i)]
    rw [List.length_range]
    field_simp

/-- Claim C9 witness: a 10-wide footprint with `section_width = 4` yields
`max(2, floor(10/4)) = 2` sections of width 5 summing to 10. -/
theorem sawtooth_sections_spec_witness :
    (0:ℝ) ≤ 10 ∧ (0:ℝ) ≤ 8 ∧ (4:ℝ) ≠ 0 ∧
    ([(⟨0, 0, 10⟩ : Point3), ⟨5, 0, 10⟩, ⟨5, 8, 10⟩, ⟨0, 8, 12⟩] ∈
      create_sawtooth_roof (rectFootprint 0 0 0 10 8) 10 4 2 30) ∧
    (create_sawtooth_roof (rectFootprint 0 0 0 10 8) 10 4 2 30).length =
      numSections 10 4 ∧
    sectionSpan [(⟨0, 0, 10⟩ : Point3), ⟨5, 0, 10⟩, ⟨5, 8, 10⟩, ⟨0, 8, 12⟩] =
      10 / numSections 10 4 ∧
    ((create_sawtooth_roof (rectFootprint 0 0 0 10 8) 10 4 2 30).map
      sectionSpan).sum = 10 := by
  have hns : numSections (10:ℝ) 4 = 2 := by
    unfold numSections
    have hfl : ⌊(10:ℝ)/4⌋ = 2 := by
      rw [Int.floor_eq_iff]
      norm_num
    rw [hfl]
    rfl
  have heq := sawtooth_rect_eq 0 0 0 10 8 10 4 2 30 (by norm_num) (by norm_num)
  have hmem : ([(⟨0, 0, 10⟩ : Point3), ⟨5, 0, 10⟩, ⟨5, 8, 10⟩, ⟨0, 8, 12⟩] ∈
      create_sawtooth_roof (rectFootprint 0 0 0 10 8) 10 4 2 30) := by
    rw [heq, hns]
    rw [show List.range 2 = [0, 1] from rfl]
    simp only [List.map_cons, List.map_nil, List.mem_cons]
    refine Or.inl ?_
    norm_num [Point3.mk.injEq]
  have hmain := sawtooth_sections_spec 0 0 0 10 8 10 4 2 30
    [(⟨0, 0, 10⟩ : Point3), ⟨5, 0, 10⟩, ⟨5, 8, 10⟩, ⟨0, 8, 12⟩]
    (by norm_num) (by norm_num) (by norm_num) hmem
  exact ⟨by norm_num, by norm_num, by norm_num, hmem, hmain.1, hmain.2.1, hmain.2.2⟩

/-- The panel faces of `create_solar_roof` on a rectangular footprint, in
slot form. -/
theorem solar_panels_rect_eq (x0 y0 z0 w d h t : ℝ) (o : String) (c : ℝ)
    (hw : 0 ≤ w) (hd : 0 ≤ d) :
    (create_solar_roof (rectFootprint x0 y0 z0 w d) h t o c).2 =
      ((panelSlots (maxPanelsX w) (maxPanelsY d)).take
        (numPanels (maxPanelsX w) (maxPanelsY d) c)).map
        (fun ij => panelFace x0 y0 h t o ij.1 ij.2) := by
  simp only [create_solar_roof, minX_rect x0 y0 z0 w d hw, maxX_rect x0 y0 z0 w d hw,
    minY_rect x0 y0 z0 w d hd, maxY_rect x0 y0 z0 w d hd]
  rw [show x0 + w - x0 = w from by ring, show y0 + d - y0 = d from by ring]

/-- A slot produced by the placement double loop has in-range indices. -/
theorem mem_panelSlots {nx ny : ℕ} {ij : ℕ × ℕ} (h : ij ∈ panelSlots nx ny) :
    ij.1 < nx ∧ ij.2 < ny := by
  simp only [panelSlots, List.mem_flatMap, List.mem_map, List.mem_range] at h
  obtain ⟨i, hi, j, hj, rfl⟩ := h
  exact ⟨hi, hj⟩

/-- `floor(width / panel_width) * panel_width ≤ width`. -/
theorem maxPanelsX_mul_le (w : ℝ) (hw : 0 ≤ w) :
    (maxPanelsX w : ℝ) * (17/10) ≤ w := by
  unfold maxPanelsX panelWidth
  have h0 : (0:ℝ) ≤ w / (17/10) := by positivity
  have h1 : (0:ℤ) ≤ ⌊w / (17/10:ℝ)⌋ := Int.floor_nonneg.mpr h0
  calc ((⌊w / (17/10:ℝ)⌋.toNat : ℕ) : ℝ) * (17/10)
      = ((⌊w / (17/10:ℝ)⌋ : ℤ) : ℝ) * (17/10) := by
        rw [← Int.cast_natCast, Int.toNat_of_nonneg h1]
    _ ≤ (w / (17/10)) * (17/10) := by
        exact mul_le_mul_of_nonneg_right (Int.floor_le _) (by norm_num)
    _ = w := by field_simp

/-- `floor(depth / panel_height) * panel_height ≤ depth`. -/
theorem maxPanelsY_mul_le (d : ℝ) (hd : 0 ≤ d) :
    (maxPanelsY d : ℝ) * 1 ≤ d := by
  unfold maxPanelsY panelHeight
  have h0 : (0:ℝ) ≤ d / 1 := by positivity
  have h1 : (0:ℤ) ≤ ⌊d / (1:ℝ)⌋ := Int.floor_nonneg.mpr h0
  calc ((⌊d / (1:ℝ)⌋.toNat : ℕ) : ℝ) * 1
      = ((⌊d / (1:ℝ)⌋ : ℤ) : ℝ) * 1 := by
        rw [← Int.cast_natCast, Int.toNat_of_nonneg h1]
    _ ≤ (d / 1) * 1 := by
        exact mul_le_mul_of_nonneg_right (Int.floor_le _) (by norm_num)
    _ = d := by field_simp

/-- Each vertex of a placed panel sits on one of the panel's two x-lines and
two y-lines, for every orientation. -/
theorem panelFace_coords (mx my h t : ℝ) (o : String) (i j : ℕ) (p : Point3)
    (hp : p ∈ panelFace mx my h t o i j) :
    (p.x = mx + i * (panelWidth + panelSpacing) ∨
      p.x = mx + i * (panelWidth + panelSpacing) + panelWidth) ∧
    (p.y = my + j * (panelHeight + panelSpacing) ∨
      p.y = my + j * (panelHeight + panelSpacing) + panelHeight) := by
  unfold panelFace at hp
  split_ifs at hp <;>
    simp only [List.mem_cons, List.not_mem_nil, or_false] at hp <;>
    rcases hp with rfl | rfl | rfl | rfl <;> simp

/-- Claim C1 (amended): every vertex of every placed panel satisfies
`min_x ≤ x`, `min_y ≤ y`, and exceeds the footprint's upper bounds by at
most the accumulated inter-panel spacing,
`x ≤ max_x + 0.1·(max_panels_x − 1)` and `y ≤ max_y + 0.1·(max_panels_y − 1)`
— the exact upper bounds `x ≤ max_x`, `y ≤ max_y` of the original claim do
not hold because the placement stride adds `panel_spacing` per grid step
while the slot count divides by the panel dimension alone. -/
theorem panel_layout_bounds (x0 y0 z0 w d h t : ℝ) (o : String) (c : ℝ)
    (f : Face) (p : Point3)
    (hw : 0 ≤ w) (hd : 0 ≤ d) (hc0 : 0 ≤ c) (hc1 : c ≤ 1)
    (hf : f ∈ (create_solar_roof (rectFootprint x0 y0 z0 w d) h t o c).2)
    (hp : p ∈ f) :
    x0 ≤ p.x ∧ p.x ≤ x0 + w + (1/10) * ((maxPanelsX w : ℝ) - 1) ∧
    y0 ≤ p.y ∧ p.y ≤ y0 + d + (1/10) * ((maxPanelsY d : ℝ) - 1) := by
  rw [solar_panels_rect_eq x0 y0 z0 w d h t o c hw hd] at hf
  obtain ⟨ij, hij, rfl⟩ := List.mem_map.mp hf
  obtain ⟨hi, hj⟩ := mem_panelSlots (List.mem_of_mem_take hij)
  obtain ⟨hx, hy⟩ := panelFace_coords x0 y0 h t o ij.1 ij.2 p hp
  have hxle : (maxPanelsX w : ℝ) * (17/10) ≤ w := maxPanelsX_mul_le w hw
  have hyle : (maxPanelsY d : ℝ) * 1 ≤ d := maxPanelsY_mul_le d hd
  have hi1 : (ij.1 : ℝ) + 1 ≤ (maxPanelsX w : ℝ) := by exact_mod_cast hi
  have hj1 : (ij.2 : ℝ) + 1 ≤ (maxPanelsY d : ℝ) := by exact_mod_cast hj
  have hi0 : (0:ℝ) ≤ (ij.1 : ℝ) := Nat.cast_nonneg _
  have hj0 : (0:ℝ) ≤ (ij.2 : ℝ) := Nat.cast_nonneg _
  simp only [panelWidth, panelSpacing, panelHeight] at hx hy
  refine ⟨?_, ?_, ?_, ?_⟩
  · rcases hx with hx | hx <;> rw [hx] <;> nlinarith
  · rcases hx with hx | hx <;> rw [hx] <;> nlinarith
  · rcases hy with hy | hy <;> rw [hy] <;> nlinarith
  · rcases hy with hy | hy <;> rw [hy] <;> nlinarith

/-- Claim C1 counterexample: on the rectangular footprint `[0, 3.4] × [0, 1]`
with full coverage, the second panel spans x from 1.8 to 3.5 — its right
edge lies strictly outside `max_x = 3.4`, violating the claimed bound for a
coverage value in `[0, 1]`. -/
theorem panel_outside_bbox :
    ∃ f ∈ (create_solar_roof (rectFootprint 0 0 0 (17/5) 1) 10 15 "south" 1).2,
      ∃ p ∈ f, maxX (rectFootprint 0 0 0 (17/5) 1) < p.x := by
  have hnx : maxPanelsX (17/5 : ℝ) = 2 := by
    unfold maxPanelsX panelWidth
    rw [show (17/5 : ℝ) / (17/10) = 2 from by norm_num]
    rw [show ⌊(2:ℝ)⌋ = 2 from by rw [Int.floor_eq_iff] <;> norm_num]
    rfl
  have hny : maxPanelsY (1 : ℝ) = 1 := by
    unfold maxPanelsY panelHeight
    rw [show (1 : ℝ) / 1 = 1 from by norm_num]
    rw [show ⌊(1:ℝ)⌋ = 1 from by rw [Int.floor_eq_iff] <;> norm_num]
    rfl
  have hnum : numPanels 2 1 1 = 2 := by
    unfold numPanels
    rw [show (((2 * 1 : ℕ)) : ℝ) * 1 = 2 from by norm_num]
    rw [show ⌊(2:ℝ)⌋ = 2 from by rw [Int.floor_eq_iff] <;> norm_num]
    rfl
  have he := solar_panels_rect_eq 0 0 0 (17/5) 1 10 15 "south" 1
    (by norm_num) (by norm_num)
  rw [hnx, hny, hnum] at he
  rw [he]
  rw [show (panelSlots 2 1).take 2 = [(0, 0), (1, 0)] from rfl]
  simp only [List.map_cons, List.map_nil]
  refine ⟨panelFace 0 0 10 15 "south" 1 0,
    List.mem_cons_of_mem _ (List.mem_cons_self _ _), ?_⟩
  unfold panelFace
  rw [if_pos rfl]
  refine ⟨_, List.mem_cons_of_mem _ (List.mem_cons_self _ _), ?_⟩
  rw [maxX_rect 0 0 0 (17/5) 1 (by norm_num)]
  show (0:ℝ) + 17/5 < 0 + (1:ℕ) * (panelWidth + panelSpacing) + panelWidth
  simp only [panelWidth, panelSpacing]
  norm_num

/-- Claim C1 witness: the bound theorem applied to the single panel placed
on a `1.7 × 1` footprint with full coverage. -/
theorem panel_layout_bounds_witness :
    (panelFace 0 0 0 15 "south" 0 0 ∈
      (create_solar_roof (rectFootprint 0 0 0 (17/10) 1) 0 15 "south" 1).2) ∧
    ((⟨0, 0, 1/20⟩ : Point3) ∈ panelFace 0 0 0 15 "south" 0 0) ∧
    ((0:ℝ) ≤ (⟨0, 0, 1/20⟩ : Point3).x ∧
      (⟨0, 0, 1/20⟩ : Point3).x ≤ 0 + 17/10 + (1/10) * ((maxPanelsX (17/10) : ℝ) - 1) ∧
      (0:ℝ) ≤ (⟨0, 0, 1/20⟩ : Point3).y ∧
      (⟨0, 0, 1/20⟩ : Point3).y ≤ 0 + 1 + (1/10) * ((maxPanelsY 1 : ℝ) - 1)) := by
  have hnx : maxPanelsX (17/10 : ℝ) = 1 := by
    unfold maxPanelsX panelWidth
    rw [show (17/10 : ℝ) / (17/10) = 1 from by norm_num]
    rw [show ⌊(1:ℝ)⌋ = 1 from by rw [Int.floor_eq_iff] <;> norm_num]
    rfl
  have hny : maxPanelsY (1 : ℝ) = 1 := by
    unfold maxPanelsY panelHeight
    rw [show (1 : ℝ) / 1 = 1 from by norm_num]
    rw [show ⌊(1:ℝ)⌋ = 1 from by rw [Int.floor_eq_iff] <;> norm_num]
    rfl
  have hnum : numPanels 1 1 1 = 1 := by
    unfold numPanels
    rw [show (((1 * 1 : ℕ)) : ℝ) * 1 = 1 from by norm_num]
    rw [show ⌊(1:ℝ)⌋ = 1 from by rw [Int.floor_eq_iff] <;> norm_num]
    rfl
  have he := solar_panels_rect_eq 0 0 0 (17/10) 1 0 15 "south" 1
    (by norm_num) (by norm_num)
  rw [hnx, hny, hnum] at he
  have hf : panelFace 0 0 0 15 "south" 0 0 ∈
      (create_solar_roof (rectFootprint 0 0 0 (17/10) 1) 0 15 "south" 1).2 := by
    rw [he, show (panelSlots 1 1).take 1 = [(0, 0)] from rfl]
    simp
  have hp : (⟨0, 0, 1/20⟩ : Point3) ∈ panelFace 0 0 0 15 "south" 0 0 := by
    unfold panelFace
    rw [if_pos rfl]
    apply List.mem_cons.mpr
    left
    ext <;> simp [panelThickness]
  exact ⟨hf, hp, panel_layout_bounds 0 0 0 (17/10) 1 0 15 "south" 1 _ _
    (by norm_num) (by norm_num) (by norm_num) (by norm_num) hf hp⟩

/-! Batch minimum/maximum facts for the weighted-hours normalization. -/

theorem foldl_min_le_init (l : List RoofProps) (a : ℝ) :
    l.foldl (fun b x => min b x.weighted_hours) a ≤ a := by
  induction l generalizing a with
  | nil => simp
  | cons x xs ih =>
      simp only [List.foldl_cons]
      exact le_trans (ih _) (min_le_left _ _)

theorem foldl_min_le_mem :
    ∀ (l : List RoofProps) (r : RoofProps), r ∈ l → ∀ a : ℝ,
      l.foldl (fun b x => min b x.weighted_hours) a ≤ r.weighted_hours := by
  intro l
  induction l with
  | nil => intro r hr; cases hr
  | cons x xs ih =>
      intro r hr a
      rcases List.mem_cons.mp hr with rfl | hr'
      · simp only [List.foldl_cons]
        exact le_trans (foldl_min_le_init xs _) (min_le_right _ _)
      · simp only [List.foldl_cons]
        exact ih r hr' _

theorem minWeighted_le {l : List RoofProps} {r : RoofProps} (hr : r ∈ l) :
    minWeighted l ≤ r.weighted_hours := by
  cases l with
  | nil => cases hr
  | cons x xs =>
      simp only [minWeighted]
      rcases List.mem_cons.mp hr with rfl | hr'
      · exact foldl_min_le_init xs _
      · exact foldl_min_le_mem xs r hr' _

theorem init_le_foldl_max (l : List RoofProps) (a : ℝ) :
    a ≤ l.foldl (fun b x => max b x.weighted_hours) a := by
  induction l generalizing a with
  | nil => simp
  | cons x xs ih =>
      simp only [List.foldl_cons]
      exact le_trans (le_max_left _ _) (ih _)

theorem mem_le_foldl_max :
    ∀ (l : List RoofProps) (r : RoofProps), r ∈ l → ∀ a : ℝ,
      r.weighted_hours ≤ l.foldl (fun b x => max b x.weighted_hours) a := by
  intro l
  induction l with
  | nil => intro r hr; cases hr
  | cons x xs ih =>
      intro r hr a
      rcases List.mem_cons.mp hr with rfl | hr'
      · simp only [List.foldl_cons]
        exact le_trans (le_max_right _ _) (init_le_foldl_max xs _)
      · simp only [List.foldl_cons]
        exact ih r hr' _

theorem le_maxWeighted {l : List RoofProps} {r : RoofProps} (hr : r ∈ l) :
    r.weighted_hours ≤ maxWeighted l := by
  cases l with
  | nil => cases hr
  | cons x xs =>
      simp only [maxWeighted]
      rcases List.mem_cons.mp hr with rfl | hr'
      · exact init_le_foldl_max xs _
      · exact mem_le_foldl_max xs r hr' _

/-- Claim C7: every record in the scored batch carries
`suitability = 0.25·tilt_factor + 0.25·azimuth_factor + 0.5·exposure_factor`
with `tilt_factor = 1 − min(|slope − 35|, 90)/90`,
`azimuth_factor = 1 − min(|azimuth − 180|, 180)/180`, and the exposure
factor the min–max-normalized weighted sun-exposure of the batch (range
clamped below by 0.001). -/
theorem suitability_formula (batch : List RoofProps) (r : RoofProps)
    (hr : r ∈ calculate_solar_potential batch) :
    r.suitability =
      1/4 * (1 - min |r.tilt - 35| 90 / 90) +
      1/4 * (1 - min |r.azimuth - 180| 180 / 180) +
      1/2 * ((r.weighted_hours - minWeighted batch) /
        max (maxWeighted batch - minWeighted batch) (1/1000)) := by
  cases batch with
  | nil => simp [calculate_solar_potential] at hr
  | cons b bs =>
      simp only [calculate_solar_potential] at hr
      rw [List.mem_insertionSort] at hr
      obtain ⟨r0, hr0, rfl⟩ := List.mem_map.mp hr
      simp [scoreRoof, tiltFactor, azimuthFactor]

/-- Claim C7 witness: a one-element batch. -/
theorem suitability_formula_witness :
    (scoreRoof
        (minWeighted [(⟨⟨0, 0, 1⟩, 100, 35, 180, 0, 0, 2, 0, 0, 0⟩ : RoofProps)])
        (max (maxWeighted [(⟨⟨0, 0, 1⟩, 100, 35, 180, 0, 0, 2, 0, 0, 0⟩ : RoofProps)] -
          minWeighted [(⟨⟨0, 0, 1⟩, 100, 35, 180, 0, 0, 2, 0, 0, 0⟩ : RoofProps)]) (1/1000))
        (⟨⟨0, 0, 1⟩, 100, 35, 180, 0, 0, 2, 0, 0, 0⟩ : RoofProps) ∈
      calculate_solar_potential
        [(⟨⟨0, 0, 1⟩, 100, 35, 180, 0, 0, 2, 0, 0, 0⟩ : RoofProps)]) ∧
    (scoreRoof
        (minWeighted [(⟨⟨0, 0, 1⟩, 100, 35, 180, 0, 0, 2, 0, 0, 0⟩ : RoofProps)])
        (max (maxWeighted [(⟨⟨0, 0, 1⟩, 100, 35, 180, 0, 0, 2, 0, 0, 0⟩ : RoofProps)] -
          minWeighted [(⟨⟨0, 0, 1⟩, 100, 35, 180, 0, 0, 2, 0, 0, 0⟩ : RoofProps)]) (1/1000))
        (⟨⟨0, 0, 1⟩, 100, 35, 180, 0, 0, 2, 0, 0, 0⟩ : RoofProps)).suitability =
      1/4 * (1 - min |(scoreRoof
        (minWeighted [(⟨⟨0, 0, 1⟩, 100, 35, 180, 0, 0, 2, 0, 0, 0⟩ : RoofProps)])
        (max (maxWeighted [(⟨⟨0, 0, 1⟩, 100, 35, 180, 0, 0, 2, 0, 0, 0⟩ : RoofProps)] -
          minWeighted [(⟨⟨0, 0, 1⟩, 100, 35, 180, 0, 0, 2, 0, 0, 0⟩ : RoofProps)]) (1/1000))
        (⟨⟨0, 0, 1⟩, 100, 35, 180, 0, 0, 2, 0, 0, 0⟩ : RoofProps)).tilt - 35| 90 / 90) +
      1/4 * (1 - min |(scoreRoof
        (minWeighted [(⟨⟨0, 0, 1⟩, 100, 35, 180, 0, 0, 2, 0, 0, 0⟩ : RoofProps)])
        (max (maxWeighted [(⟨⟨0, 0, 1⟩, 100, 35, 180, 0, 0, 2, 0, 0, 0⟩ : RoofProps)] -
          minWeighted [(⟨⟨0, 0, 1⟩, 100, 35, 180, 0, 0, 2, 0, 0, 0⟩ : RoofProps)]) (1/1000))
        (⟨⟨0, 0, 1⟩, 100, 35, 180, 0, 0, 2, 0, 0, 0⟩ : RoofProps)).azimuth - 180| 180 / 180) +
      1/2 * (((scoreRoof
        (minWeighted [(⟨⟨0, 0, 1⟩, 100, 35, 180, 0, 0, 2, 0, 0, 0⟩ : RoofProps)])
        (max (maxWeighted [(⟨⟨0, 0, 1⟩, 100, 35, 180, 0, 0, 2, 0, 0, 0⟩ : RoofProps)] -
          minWeighted [(⟨⟨0, 0, 1⟩, 100, 35, 180, 0, 0, 2, 0, 0, 0⟩ : RoofProps)]) (1/1000))
        (⟨⟨0, 0, 1⟩, 100, 35, 180, 0, 0, 2, 0, 0, 0⟩ : RoofProps)).weighted_hours -
          minWeighted [(⟨⟨0, 0, 1⟩, 100, 35, 180, 0, 0, 2, 0, 0, 0⟩ : RoofProps)]) /
        max (maxWeighted [(⟨⟨0, 0, 1⟩, 100, 35, 180, 0, 0, 2, 0, 0, 0⟩ : RoofProps)] -
          minWeighted [(⟨⟨0, 0, 1⟩, 100, 35, 180, 0, 0, 2, 0, 0, 0⟩ : RoofProps)]) (1/1000)) := by
  have hmem : scoreRoof
      (minWeighted [(⟨⟨0, 0, 1⟩, 100, 35, 180, 0, 0, 2, 0, 0, 0⟩ : RoofProps)])
      (max (maxWeighted [(⟨⟨0, 0, 1⟩, 100, 35, 180, 0, 0, 2, 0, 0, 0⟩ : RoofProps)] -
        minWeighted [(⟨⟨0, 0, 1⟩, 100, 35, 180, 0, 0, 2, 0, 0, 0⟩ : RoofProps)]) (1/1000))
      (⟨⟨0, 0, 1⟩, 100, 35, 180, 0, 0, 2, 0, 0, 0⟩ : RoofProps) ∈
      calculate_solar_potential
        [(⟨⟨0, 0, 1⟩, 100, 35, 180, 0, 0, 2, 0, 0, 0⟩ : RoofProps)] := by
    simp only [calculate_solar_potential]
    rw [List.mem_insertionSort]
    simp only [List.map_cons, List.map_nil, List.mem_cons]
    exact Or.inl trivial
  exact ⟨hmem, suitability_formula _ _ hmem⟩

theorem magnitude_upVec : magnitude upVec = 1 := by
  unfold magnitude upVec
  rw [show (0:ℝ)^2 + 0^2 + 1^2 = 1 from by norm_num, Real.sqrt_one]

theorem magnitude_northVec : magnitude northVec = 1 := by
  unfold magnitude northVec
  rw [show (0:ℝ)^2 + 1^2 + 0^2 = 1 from by norm_num, Real.sqrt_one]

/-- For an upward-pointing unit normal the computed tilt stays in [0, 90]. -/
theorem calc_tilt_bounds (n : Point3) (hmag : magnitude n = 1) (hz : 0 ≤ n.z) :
    0 ≤ calc_tilt n ∧ calc_tilt n ≤ 90 := by
  have hdot : dot n upVec = n.z := by simp [dot, upVec]
  have hang : angleBetween n upVec = Real.arccos n.z := by
    unfold angleBetween
    rw [hdot, hmag, magnitude_upVec]
    norm_num
  unfold calc_tilt
  rw [hang]
  have h1 : 0 ≤ Real.arccos n.z := Real.arccos_nonneg _
  have h2 : Real.arccos n.z ≤ Real.pi / 2 := Real.arccos_le_pi_div_two.mpr hz
  have hpi : 0 < Real.pi := Real.pi_pos
  have heq : Real.pi / 2 * 180 / Real.pi = 90 := by field_simp; ring
  constructor
  · have hle : Real.arccos n.z * 180 / Real.pi ≤ Real.pi / 2 * 180 / Real.pi := by
      gcongr
    linarith
  · have hge : 0 ≤ Real.arccos n.z * 180 / Real.pi := by positivity
    linarith

/-- The computed azimuth of any normal lies in [0, 360). -/
theorem calc_azimuth_range (n : Point3) :
    0 ≤ calc_azimuth n ∧ calc_azimuth n < 360 := by
  unfold calc_azimuth
  by_cases hm : magnitude ⟨n.x, n.y, 0⟩ < 1/1000
  · rw [if_pos hm]
    norm_num
  · rw [if_neg hm]
    push_neg at hm
    have hmpos : 0 < magnitude ⟨n.x, n.y, 0⟩ := lt_of_lt_of_le (by norm_num) hm
    have hm2 : magnitude ⟨n.x, n.y, 0⟩ ^ 2 = n.x^2 + n.y^2 := by
      unfold magnitude
      rw [Real.sq_sqrt (by positivity)]
      norm_num
    have hmagn : magnitude (normalizeVec ⟨n.x, n.y, 0⟩) = 1 := by
      unfold magnitude normalizeVec
      have harg : (Point3.x ⟨n.x, n.y, 0⟩ / magnitude ⟨n.x, n.y, 0⟩)^2 +
          (Point3.y ⟨n.x, n.y, 0⟩ / magnitude ⟨n.x, n.y, 0⟩)^2 +
          (Point3.z ⟨n.x, n.y, 0⟩ / magnitude ⟨n.x, n.y, 0⟩)^2 = 1 := by
        show (n.x / magnitude ⟨n.x, n.y, 0⟩)^2 + (n.y / magnitude ⟨n.x, n.y, 0⟩)^2 +
          ((0:ℝ) / magnitude ⟨n.x, n.y, 0⟩)^2 = 1
        field_simp
        linarith [hm2]
      rw [harg, Real.sqrt_one]
    have hdot : dot (normalizeVec ⟨n.x, n.y, 0⟩) northVec =
        n.y / magnitude ⟨n.x, n.y, 0⟩ := by
      simp [dot, northVec, normalizeVec]
    have hang : angleBetween (normalizeVec ⟨n.x, n.y, 0⟩) northVec =
        Real.arccos (n.y / magnitude ⟨n.x, n.y, 0⟩) := by
      unfold angleBetween
      rw [hdot, hmagn, magnitude_northVec]
      norm_num
    simp only [hang]
    have hpi : 0 < Real.pi := Real.pi_pos
    have hA0 : 0 ≤ Real.arccos (n.y / magnitude ⟨n.x, n.y, 0⟩) :=
      Real.arccos_nonneg _
    have hApi : Real.arccos (n.y / magnitude ⟨n.x, n.y, 0⟩) ≤ Real.pi :=
      Real.arccos_le_pi _
    have hdeg0 : 0 ≤ Real.arccos (n.y / magnitude ⟨n.x, n.y, 0⟩) * 180 / Real.pi := by
      positivity
    have hdeg180 : Real.arccos (n.y / magnitude ⟨n.x, n.y, 0⟩) * 180 / Real.pi ≤ 180 := by
      have hle : Real.arccos (n.y / magnitude ⟨n.x, n.y, 0⟩) * 180 / Real.pi ≤
          Real.pi * 180 / Real.pi := by gcongr
      have heq : Real.pi * 180 / Real.pi = 180 := by field_simp
      linarith
    by_cases hx : n.x < 0
    · rw [if_pos hx]
      have hxne : n.x ≠ 0 := ne_of_lt hx
      have hx2 : 0 < n.x ^ 2 := by
        have := mul_pos_of_neg_of_neg hx hx
        nlinarith
      have hym : n.y / magnitude ⟨n.x, n.y, 0⟩ < 1 := by
        rw [div_lt_one hmpos]
        have habs : |n.y| < magnitude ⟨n.x, n.y, 0⟩ := by
          have hsq : n.y^2 < n.x^2 + n.y^2 + 0^2 := by nlinarith
          have := Real.sqrt_lt_sqrt (sq_nonneg n.y) hsq
          rw [Real.sqrt_sq_eq_abs] at this
          exact this
        exact lt_of_le_of_lt (le_abs_self _) habs
      have hApos : 0 < Real.arccos (n.y / magnitude ⟨n.x, n.y, 0⟩) :=
        Real.arccos_pos.mpr hym
      have hdegpos : 0 < Real.arccos (n.y / magnitude ⟨n.x, n.y, 0⟩) * 180 / Real.pi := by
        have h1 : 0 < Real.arccos (n.y / magnitude ⟨n.x, n.y, 0⟩) * 180 := by
          nlinarith
        exact div_pos h1 hpi
      constructor
      · linarith
      · linarith
    · rw [if_neg hx]
      constructor
      · exact hdeg0
      · linarith

/-- Every record scored by `calculate_solar_potential` has suitability in
[0, 1]. -/
theorem suitability_mem_bounds (batch : List RoofProps) (r : RoofProps)
    (hr : r ∈ calculate_solar_potential batch) :
    0 ≤ r.suitability ∧ r.suitability ≤ 1 := by
  cases batch with
  | nil => simp [calculate_solar_potential] at hr
  | cons b bs =>
      simp only [calculate_solar_potential] at hr
      rw [List.mem_insertionSort] at hr
      obtain ⟨r0, hr0, rfl⟩ := List.mem_map.mp hr
      have h1 : minWeighted (b :: bs) ≤ r0.weighted_hours := minWeighted_le hr0
      have h2 : r0.weighted_hours ≤ maxWeighted (b :: bs) := le_maxWeighted hr0
      have hrange : (0:ℝ) <
          max (maxWeighted (b :: bs) - minWeighted (b :: bs)) (1/1000) :=
        lt_of_lt_of_le (by norm_num) (le_max_right _ _)
      have hnum : maxWeighted (b :: bs) - minWeighted (b :: bs) ≤
          max (maxWeighted (b :: bs) - minWeighted (b :: bs)) (1/1000) :=
        le_max_left _ _
      have hwf0 : 0 ≤ (r0.weighted_hours - minWeighted (b :: bs)) /
          max (maxWeighted (b :: bs) - minWeighted (b :: bs)) (1/1000) :=
        div_nonneg (by linarith) (le_of_lt hrange)
      have hwf1 : (r0.weighted_hours - minWeighted (b :: bs)) /
          max (maxWeighted (b :: bs) - minWeighted (b :: bs)) (1/1000) ≤ 1 := by
        rw [div_le_one hrange]
        linarith
      have htmin0 : (0:ℝ) ≤ min |r0.tilt - 35| 90 :=
        le_min (abs_nonneg _) (by norm_num)
      have htmin90 : min |r0.tilt - 35| 90 ≤ 90 := min_le_right _ _
      have htf : 0 ≤ tiltFactor r0.tilt ∧ tiltFactor r0.tilt ≤ 1 := by
        unfold tiltFactor
        constructor <;> [skip; skip] <;> nlinarith
      have hamin0 : (0:ℝ) ≤ min |r0.azimuth - 180| 180 :=
        le_min (abs_nonneg _) (by norm_num)
      have hamin180 : min |r0.azimuth - 180| 180 ≤ 180 := min_le_right _ _
      have haf : 0 ≤ azimuthFactor r0.azimuth ∧ azimuthFactor r0.azimuth ≤ 1 := by
        unfold azimuthFactor
        constructor <;> [skip; skip] <;> nlinarith
      simp only [scoreRoof]
      constructor
      · nlinarith [htf.1, haf.1, hwf0]
      · nlinarith [htf.2, haf.2, hwf1]

/-- Claim C8 (amended): for a unit surface normal the computed slope lies in
[0, 90] provided the normal points upward (`n.z ≥ 0`; a downward normal
gives a negative slope — see the counterexample); the computed azimuth lies
in [0, 360) for every normal, and every scored record's suitability lies in
[0, 1]. -/
theorem slope_azimuth_suitability_ranges (n : Point3) (a : ℝ)
    (batch : List RoofProps) (r : RoofProps)
    (hmag : magnitude n = 1) (hz : 0 ≤ n.z)
    (hr : r ∈ calculate_solar_potential batch) :
    (0 ≤ (roof_props_of n a).tilt ∧ (roof_props_of n a).tilt ≤ 90) ∧
    (0 ≤ (roof_props_of n a).azimuth ∧ (roof_props_of n a).azimuth < 360) ∧
    (0 ≤ r.suitability ∧ r.suitability ≤ 1) :=
  ⟨calc_tilt_bounds n hmag hz, calc_azimuth_range n,
    suitability_mem_bounds batch r hr⟩

/-- Claim C8 counterexample: the downward unit normal (0, 0, −1) — a valid
unit surface normal — gets computed slope −90, outside the claimed [0, 90]. -/
theorem downward_normal_negative_slope :
    magnitude ⟨0, 0, -1⟩ = 1 ∧ (roof_props_of ⟨0, 0, -1⟩ 1).tilt = -90 ∧
    ¬ (0 ≤ (roof_props_of ⟨0, 0, -1⟩ 1).tilt) := by
  have hmag : magnitude (⟨0, 0, -1⟩ : Point3) = 1 := by
    unfold magnitude
    rw [show ((0:ℝ)^2 + 0^2 + (-1:ℝ)^2 : ℝ) = 1 from by norm_num, Real.sqrt_one]
  have htilt : (roof_props_of ⟨0, 0, -1⟩ 1).tilt = -90 := by
    show calc_tilt ⟨0, 0, -1⟩ = -90
    unfold calc_tilt angleBetween
    rw [show dot ⟨0, 0, -1⟩ upVec = -1 from by simp [dot, upVec], hmag,
      magnitude_upVec]
    rw [show (-1 : ℝ) / (1 * 1) = -1 from by norm_num, Real.arccos_neg_one]
    have hpi : Real.pi * 180 / Real.pi = 180 := by
      field_simp
    linarith
  exact ⟨hmag, htilt, by rw [htilt]; norm_num⟩

/-- Claim C8 witness: the straight-up unit normal and a one-element batch. -/
theorem slope_azimuth_suitability_ranges_witness :
    magnitude ⟨0, 0, 1⟩ = 1 ∧ (0:ℝ) ≤ (⟨0, 0, 1⟩ : Point3).z ∧
    (scoreRoof
        (minWeighted [(⟨⟨0, 0, 1⟩, 50, 10, 90, 0, 0, 3, 0, 0, 0⟩ : RoofProps)])
        (max (maxWeighted [(⟨⟨0, 0, 1⟩, 50, 10, 90, 0, 0, 3, 0, 0, 0⟩ : RoofProps)] -
          minWeighted [(⟨⟨0, 0, 1⟩, 50, 10, 90, 0, 0, 3, 0, 0, 0⟩ : RoofProps)]) (1/1000))
        (⟨⟨0, 0, 1⟩, 50, 10, 90, 0, 0, 3, 0, 0, 0⟩ : RoofProps) ∈
      calculate_solar_potential
        [(⟨⟨0, 0, 1⟩, 50, 10, 90, 0, 0, 3, 0, 0, 0⟩ : RoofProps)]) ∧
    ((0 ≤ (roof_props_of ⟨0, 0, 1⟩ 2).tilt ∧ (roof_props_of ⟨0, 0, 1⟩ 2).tilt ≤ 90) ∧
      (0 ≤ (roof_props_of ⟨0, 0, 1⟩ 2).azimuth ∧
        (roof_props_of ⟨0, 0, 1⟩ 2).azimuth < 360) ∧
      (0 ≤ (scoreRoof
        (minWeighted [(⟨⟨0, 0, 1⟩, 50, 10, 90, 0, 0, 3, 0, 0, 0⟩ : RoofProps)])
        (max (maxWeighted [(⟨⟨0, 0, 1⟩, 50, 10, 90, 0, 0, 3, 0, 0, 0⟩ : RoofProps)] -
          minWeighted [(⟨⟨0, 0, 1⟩, 50, 10, 90, 0, 0, 3, 0, 0, 0⟩ : RoofProps)]) (1/1000))
        (⟨⟨0, 0, 1⟩, 50, 10, 90, 0, 0, 3, 0, 0, 0⟩ : RoofProps)).suitability ∧
        (scoreRoof
        (minWeighted [(⟨⟨0, 0, 1⟩, 50, 10, 90, 0, 0, 3, 0, 0, 0⟩ : RoofProps)])
        (max (maxWeighted [(⟨⟨0, 0, 1⟩, 50, 10, 90, 0, 0, 3, 0, 0, 0⟩ : RoofProps)] -
          minWeighted [(⟨⟨0, 0, 1⟩, 50, 10, 90, 0, 0, 3, 0, 0, 0⟩ : RoofProps)]) (1/1000))
        (⟨⟨0, 0, 1⟩, 50, 10, 90, 0, 0, 3, 0, 0, 0⟩ : RoofProps)).suitability ≤ 1)) := by
  have hmag : magnitude (⟨0, 0, 1⟩ : Point3) = 1 := by
    unfold magnitude
    rw [show ((0:ℝ)^2 + 0^2 + (1:ℝ)^2 : ℝ) = 1 from by norm_num, Real.sqrt_one]
  have hmem : scoreRoof
      (minWeighted [(⟨⟨0, 0, 1⟩, 50, 10, 90, 0, 0, 3, 0, 0, 0⟩ : RoofProps)])
      (max (maxWeighted [(⟨⟨0, 0, 1⟩, 50, 10, 90, 0, 0, 3, 0, 0, 0⟩ : RoofProps)] -
        minWeighted [(⟨⟨0, 0, 1⟩, 50, 10, 90, 0, 0, 3, 0, 0, 0⟩ : RoofProps)]) (1/1000))
      (⟨⟨0, 0, 1⟩, 50, 10, 90, 0, 0, 3, 0, 0, 0⟩ : RoofProps) ∈
      calculate_solar_potential
        [(⟨⟨0, 0, 1⟩, 50, 10, 90, 0, 0, 3, 0, 0, 0⟩ : RoofProps)] := by
    simp only [calculate_solar_potential]
    rw [List.mem_insertionSort]
    simp only [List.map_cons, List.map_nil, List.mem_cons]
    exact Or.inl trivial
  exact ⟨hmag, by norm_num, hmem,
    slope_azimuth_suitability_ranges ⟨0, 0, 1⟩ 2 _ _ hmag (by norm_num) hmem⟩

/-- Scoring never changes the number of records. -/
theorem calculate_solar_potential_length (l : List RoofProps) :
    (calculate_solar_potential l).length = l.length := by
  cases l with
  | nil => rfl
  | cons b bs =>
      simp only [calculate_solar_potential]
      rw [List.length_insertionSort, List.length_map]

theorem foldl_min_zeros :
    ∀ l : List RoofProps, (∀ y ∈ l, y.weighted_hours = 0) →
      l.foldl (fun b x => min b x.weighted_hours) 0 = 0 := by
  intro l
  induction l with
  | nil => intro _; rfl
  | cons x xs ih =>
      intro h
      have hx := h x (List.mem_cons_self x xs)
      simp only [List.foldl_cons, hx, min_self]
      exact ih (fun y hy => h y (List.mem_cons_of_mem x hy))

theorem foldl_max_zeros :
    ∀ l : List RoofProps, (∀ y ∈ l, y.weighted_hours = 0) →
      l.foldl (fun b x => max b x.weighted_hours) 0 = 0 := by
  intro l
  induction l with
  | nil => intro _; rfl
  | cons x xs ih =>
      intro h
      have hx := h x (List.mem_cons_self x xs)
      simp only [List.foldl_cons, hx, max_self]
      exact ih (fun y hy => h y (List.mem_cons_of_mem x hy))

theorem minWeighted_zeros (l : List RoofProps)
    (h : ∀ y ∈ l, y.weighted_hours = 0) : l ≠ [] → minWeighted l = 0 := by
  cases l with
  | nil => intro hne; exact absurd rfl hne
  | cons x xs =>
      intro _
      simp only [minWeighted]
      rw [h x (List.mem_cons_self x xs)]
      exact foldl_min_zeros xs (fun y hy => h y (List.mem_cons_of_mem x hy))

theorem maxWeighted_zeros (l : List RoofProps)
    (h : ∀ y ∈ l, y.weighted_hours = 0) : l ≠ [] → maxWeighted l = 0 := by
  cases l with
  | nil => intro hne; exact absurd rfl hne
  | cons x xs =>
      intro _
      simp only [maxWeighted]
      rw [h x (List.mem_cons_self x xs)]
      exact foldl_max_zeros xs (fun y hy => h y (List.mem_cons_of_mem x hy))

/-- Claim C2 counterexample: invoked directly with one face and zero
sun-direction samples, `analyze_solar_access` does fail — the
`solar_access_hours / len(hoys)` percentage divides by zero and the call
aborts instead of producing a record. -/
theorem analyze_empty_samples_fails :
    analyze_solar_access [{ normal := ⟨0, 0, 1⟩, area := 100 }] [] =
      Except.error () := rfl

/-- Claim C2 (amended): with zero sun-direction samples the analysis step
raises a division-by-zero error; the surrounding pipeline catches it,
substitutes weighted exposure 0 for every face, and still produces one
scored record per face, each with exposure factor 0 — so its suitability
reduces to the tilt and azimuth terms alone. -/
theorem empty_samples_pipeline (roofs : List RoofProps) (r : RoofProps)
    (hr : r ∈ solar_pipeline roofs []) :
    (solar_pipeline roofs []).length = roofs.length ∧
    r.weighted_hours = 0 ∧
    r.suitability = 1/4 * tiltFactor r.tilt + 1/4 * azimuthFactor r.azimuth := by
  cases roofs with
  | nil =>
      exfalso
      rw [show solar_pipeline [] [] = [] from rfl] at hr
      exact List.not_mem_nil r hr
  | cons x xs =>
      have hana : analyze_solar_access (x :: xs) ([] : List SunSample) =
          Except.error () := rfl
      have hpl : solar_pipeline (x :: xs) [] =
          calculate_solar_potential ((x :: xs).map zeroExposure) := by
        unfold solar_pipeline
        rw [hana]
      have hz : ∀ y ∈ (x :: xs).map zeroExposure, y.weighted_hours = 0 := by
        intro y hy
        obtain ⟨t, _, rfl⟩ := List.mem_map.mp hy
        rfl
      have hminz : minWeighted (zeroExposure x :: xs.map zeroExposure) = 0 := by
        apply minWeighted_zeros
        · intro y hy
          exact hz y (by rw [List.map_cons]; exact hy)
        · simp
      have hmaxz : maxWeighted (zeroExposure x :: xs.map zeroExposure) = 0 := by
        apply maxWeighted_zeros
        · intro y hy
          exact hz y (by rw [List.map_cons]; exact hy)
        · simp
      refine ⟨?_, ?_, ?_⟩
      · rw [hpl, calculate_solar_potential_length, List.length_map]
      · rw [hpl, List.map_cons] at hr
        simp only [calculate_solar_potential] at hr
        rw [List.mem_insertionSort] at hr
        obtain ⟨r0, hr0, rfl⟩ := List.mem_map.mp hr
        have h0 : r0.weighted_hours = 0 :=
          hz r0 (by rw [List.map_cons]; exact hr0)
        simp [scoreRoof, h0]
      · rw [hpl, List.map_cons] at hr
        simp only [calculate_solar_potential] at hr
        rw [List.mem_insertionSort] at hr
        obtain ⟨r0, hr0, rfl⟩ := List.mem_map.mp hr
        have h0 : r0.weighted_hours = 0 :=
          hz r0 (by rw [List.map_cons]; exact hr0)
        simp only [scoreRoof, hminz, hmaxz, h0]
        norm_num

/-- Claim C2 witness: one face, zero samples. -/
theorem empty_samples_pipeline_witness :
    (scoreRoof
        (minWeighted [zeroExposure (⟨⟨0, 0, 1⟩, 10, 20, 170, 5, 1, 7, 0, 0, 0⟩ : RoofProps)])
        (max (maxWeighted [zeroExposure (⟨⟨0, 0, 1⟩, 10, 20, 170, 5, 1, 7, 0, 0, 0⟩ : RoofProps)] -
          minWeighted [zeroExposure (⟨⟨0, 0, 1⟩, 10, 20, 170, 5, 1, 7, 0, 0, 0⟩ : RoofProps)]) (1/1000))
        (zeroExposure (⟨⟨0, 0, 1⟩, 10, 20, 170, 5, 1, 7, 0, 0, 0⟩ : RoofProps)) ∈
      solar_pipeline [(⟨⟨0, 0, 1⟩, 10, 20, 170, 5, 1, 7, 0, 0, 0⟩ : RoofProps)] []) ∧
    (solar_pipeline [(⟨⟨0, 0, 1⟩, 10, 20, 170, 5, 1, 7, 0, 0, 0⟩ : RoofProps)] []).length =
      ([(⟨⟨0, 0, 1⟩, 10, 20, 170, 5, 1, 7, 0, 0, 0⟩ : RoofProps)]).length ∧
    (scoreRoof
        (minWeighted [zeroExposure (⟨⟨0, 0, 1⟩, 10, 20, 170, 5, 1, 7, 0, 0, 0⟩ : RoofProps)])
        (max (maxWeighted [zeroExposure (⟨⟨0, 0, 1⟩, 10, 20, 170, 5, 1, 7, 0, 0, 0⟩ : RoofProps)] -
          minWeighted [zeroExposure (⟨⟨0, 0, 1⟩, 10, 20, 170, 5, 1, 7, 0, 0, 0⟩ : RoofProps)]) (1/1000))
        (zeroExposure (⟨⟨0, 0, 1⟩, 10, 20, 170, 5, 1, 7, 0, 0, 0⟩ : RoofProps))).weighted_hours = 0 := by
  have hana : analyze_solar_access
      [(⟨⟨0, 0, 1⟩, 10, 20, 170, 5, 1, 7, 0, 0, 0⟩ : RoofProps)] [] =
      Except.error () := rfl
  have hmem : scoreRoof
      (minWeighted [zeroExposure (⟨⟨0, 0, 1⟩, 10, 20, 170, 5, 1, 7, 0, 0, 0⟩ : RoofProps)])
      (max (maxWeighted [zeroExposure (⟨⟨0, 0, 1⟩, 10, 20, 170, 5, 1, 7, 0, 0, 0⟩ : RoofProps)] -
        minWeighted [zeroExposure (⟨⟨0, 0, 1⟩, 10, 20, 170, 5, 1, 7, 0, 0, 0⟩ : RoofProps)]) (1/1000))
      (zeroExposure (⟨⟨0, 0, 1⟩, 10, 20, 170, 5, 1, 7, 0, 0, 0⟩ : RoofProps)) ∈
      solar_pipeline [(⟨⟨0, 0, 1⟩, 10, 20, 170, 5, 1, 7, 0, 0, 0⟩ : RoofProps)] [] := by
    unfold solar_pipeline
    rw [hana]
    rw [show List.map zeroExposure
        [(⟨⟨0, 0, 1⟩, 10, 20, 170, 5, 1, 7, 0, 0, 0⟩ : RoofProps)] =
      [zeroExposure (⟨⟨0, 0, 1⟩, 10, 20, 170, 5, 1, 7, 0, 0, 0⟩ : RoofProps)] from rfl]
    simp only [calculate_solar_potential]
    rw [List.mem_insertionSort]
    simp only [List.map_cons, List.map_nil, List.mem_cons]
    exact Or.inl trivial
  have hall := empty_samples_pipeline
    [(⟨⟨0, 0, 1⟩, 10, 20, 170, 5, 1, 7, 0, 0, 0⟩ : RoofProps)] _ hmem
  exact ⟨hmem, hall.1, hall.2.1⟩

end

end RoofModel
